import Mathlib

/-!
Shallow embedding of `src/gfxlowlevel.c` / `src/gfxlowlevel.h` from the
sdlrig repository.  The C layer wraps libplacebo / SDL / ffmpeg handles in
ownership structs (`gpu_ctx`, `frame_ctx`, `mix_ctx`, `lut`) and forwards
calls to the wrapped libraries.  The embedding models:

* each opaque library handle as `Option Nat` (or a small record where the
  C code reads fields of the handle), `none` standing for `NULL`;
* each public C function as a total Lean function taking an oracle that
  decides the outcome of every wrapped-library call, and returning an
  `Outcome` (normal return value, `exit()` process termination, `assert`
  failure, or undefined behaviour from a NULL dereference) together with
  the updated structs and a trace of emitted stderr messages and wrapped
  library calls;
* a `T **` out-parameter cell as `Option (Option T)`: the outer `none` is
  a NULL cell pointer, the inner `none` a NULL handle stored in the cell.

Machine integers never overflow in the modelled paths, so C `int` is
embedded as `Int`; C `float` fields are carried as `Rat` (they are only
copied, never rounded, on every modelled path except the final dispatch
rectangle, where the multiplication is modelled exactly).
-/

namespace GfxLowLevel

/-- C `errno` sentinel `EINVAL` as returned by the wrapper functions. -/
def EINVAL : Int := 22

/-- C `errno` sentinel `ENOMEM` as returned by the wrapper functions. -/
def ENOMEM : Int := 12

/-- Result of running one C function: a normal return, a call to `exit`,
an `assert` failure (abort), or undefined behaviour (NULL dereference or
out-of-bounds read). -/
inductive Outcome (α : Type) where
  | ret (v : α)
  | exits (code : Nat)
  | assertFail
  | ub
deriving DecidableEq

/-- A GPU texture handle together with the `params.w` / `params.h` fields
the C code reads from it. -/
structure Tex where
  id : Nat
  w : Int
  h : Int
deriving DecidableEq

/-- The `pl_vulkan` handle; the C code dereferences its `instance` and
`gpu` fields. -/
structure VkHandle where
  inst : Nat
  gpu : Option Nat
deriving DecidableEq

/-- Pixel formats distinguished by the C code. -/
inductive PixFmt where
  | videotoolbox
  | nv12
  | rgba
  | other (n : Nat)
deriving DecidableEq

/-- Provenance tag for an `AVFrame` in the model: handed in by the caller,
produced by `av_hwframe_transfer_data`, or produced by the `sws_scale`
RGBA conversion. -/
inductive FrameOrigin where
  | caller
  | hwTransfer
  | rgbaConv
deriving DecidableEq

/-- Model of an `AVFrame`: the fields the wrapper reads, plus a
provenance tag and an abstract identity for the pixel data. -/
structure AvFrame where
  width : Int
  height : Int
  format : PixFmt
  origin : FrameOrigin
  dataId : Nat
deriving DecidableEq

/-- The frame produced by `av_frame_alloc` + `av_hwframe_transfer_data`
from a VideoToolbox hardware frame: an NV12 software frame with the same
dimensions and data. -/
def hwTransferred (s : AvFrame) : AvFrame :=
  { width := s.width, height := s.height, format := .nv12,
    origin := .hwTransfer, dataId := s.dataId }

/-- The frame produced by `av_frame_alloc` + `av_frame_get_buffer` +
`sws_scale` from a software frame: an RGBA frame with the same dimensions
and data. -/
def rgbaOf (s : AvFrame) : AvFrame :=
  { width := s.width, height := s.height, format := .rgba,
    origin := .rgbaConv, dataId := s.dataId }

/-- Model of a `struct SwsContext` as created by `sws_getContext` in
`gfx_lowlevel_map_frame_ctx`. -/
structure SwsCtx where
  srcW : Int
  srcH : Int
  srcFmt : PixFmt
  dstW : Int
  dstH : Int
  dstFmt : PixFmt
deriving DecidableEq

/-- Model of a `struct pl_frame`: the fields this wrapper writes or
reads.  A zero-initialized frame is `{}`. -/
structure PlFrame where
  num_planes : Nat := 0
  plane0_texture : Option Tex := none
  plane0_components : Nat := 0
  plane0_mapping : List Int := []
  color_repr_unknown : Bool := false
  color_space_unknown : Bool := false
  mapped_src : Option AvFrame := none
  from_swapchain : Option Nat := none
deriving DecidableEq

/-- The all-zero `struct pl_frame` produced by `memset(.., 0, ..)`. -/
def plFrameZero : PlFrame := {}

/-- The `pl_frame` written by a successful `pl_map_avframe_ex` of `f`. -/
def mappedPlFrame (f : AvFrame) : PlFrame :=
  { num_planes := 1, mapped_src := some f }

/-- `struct gfx_lowlevel_gpu_ctx` from `gfxlowlevel.h`. -/
structure GpuCtx where
  shared_window : Option Nat
  vk : Option VkHandle
  vk_surface : Option Nat
  swchain : Option Nat
  swap_frame : Option Nat
  window_frame : PlFrame
  renderer : Option Nat
  log : Option Nat
  started : Bool
deriving DecidableEq

/-- `struct gfx_lowlevel_frame_ctx` from `gfxlowlevel.h`. -/
structure FrameCtx where
  is_mapped : Bool
  pl_frame : PlFrame
  tex : List (Option Tex)
  ctx_backref : Option GpuCtx
  to_rgba : Option SwsCtx
deriving DecidableEq

/-- A `struct pl_shader_var` entry (name pointer plus data pointer). -/
structure ShaderVarC where
  name : String
  dataId : Nat
deriving DecidableEq

/-- `struct gfx_lowlevel_mix_ctx` from `gfxlowlevel.h`. -/
structure MixCtx where
  ctx : Option GpuCtx
  sh_prelude : Option String
  header : Option String
  body : Option String
  vars : Option (List ShaderVarC)
  num_vars : Int
  dispatch : Option Nat
deriving DecidableEq

/-- `struct gfx_lowlevel_lut` from `gfxlowlevel.h`. -/
structure Lut where
  lut_filename : Option String
  lut : Option Nat
  lut_state : Option Nat
deriving DecidableEq

/-- `pl_rect2df` rectangle of `float` coordinates. -/
structure Rect2DF where
  x0 : Rat := 0
  y0 : Rat := 0
  x1 : Rat := 0
  y1 : Rat := 0
deriving DecidableEq

/-- `struct gfx_lowlevel_filter_params` from `gfxlowlevel.h`. -/
structure FilterParams where
  src : Rect2DF := {}
  dst : Rect2DF := {}
  rotation : Rat := 0
  sh_prelude : Option String := none
  header : Option String := none
  body : Option String := none
  vars : Option (List ShaderVarC) := none
  num_vars : Int := 0
deriving DecidableEq

/-- `enum pl_desc_type` values. -/
inductive DescType where
  | sampled_tex
  | storage_img
  | buf_uniform
  | buf_storage
deriving DecidableEq

/-- `enum pl_desc_access` values. -/
inductive DescAccess where
  | readonly
  | writeonly
  | readwrite
deriving DecidableEq

/-- Texture address modes used in the descriptor binding. -/
inductive AddressMode where
  | addrRepeat
  | clampEdge
deriving DecidableEq

/-- Texture sample modes used in the descriptor binding. -/
inductive SampleMode where
  | linear
  | nearest
deriving DecidableEq

/-- A `struct pl_shader_desc` as built in `gfx_lowlevel_gpu_ctx_render`:
the `pl_desc` fields plus the `pl_desc_binding` fields. -/
structure PlShaderDesc where
  name : String
  dtype : DescType
  binding : Nat
  access : DescAccess
  object : Option Tex
  address_mode : AddressMode
  sample_mode : SampleMode
deriving DecidableEq

/-- A `struct pl_shader_va` as built in `gfx_lowlevel_gpu_ctx_render`:
attribute name, offset, vertex format, and the four per-corner vec2
values pointed to by `data`. -/
structure PlShaderVa where
  name : String
  offset : Nat
  fmtIsFloat : Bool
  fmtComponents : Nat
  data : List (Rat × Rat)
deriving DecidableEq

/-- `enum pl_shader_sig` values used by the wrapper. -/
inductive ShaderSig where
  | sigNone
  | sigColor
deriving DecidableEq

/-- The `struct pl_custom_shader` built in `gfx_lowlevel_gpu_ctx_render`
and handed to `pl_shader_custom`. -/
structure CustomShaderParams where
  description : String
  sh_prelude : Option String
  header : Option String
  body : Option String
  input : ShaderSig
  output : ShaderSig
  descriptors : List PlShaderDesc
  num_descriptors : Nat
  shader_vars : Option (List ShaderVarC)
  num_variables : Int
  vertex_attribs : List PlShaderVa
  num_vertex_attribs : Nat
  num_constants : Nat
  compute : Bool
deriving DecidableEq

/-- The `struct pl_dispatch_params` built in the non-debug branch of
`gfx_lowlevel_gpu_ctx_render` and handed to `pl_dispatch_finish`. -/
structure DispatchParams where
  target : Tex
  rect_x0 : Rat
  rect_y0 : Rat
  rect_x1 : Rat
  rect_y1 : Rat
deriving DecidableEq

/-- The `pl_fmt` returned by `pl_find_named_fmt(gpu, "rgba8")`: the
fields read by `gfx_lowlevel_frame_create_texture`. -/
structure FmtInfo where
  num_components : Nat
  so0 : Int
  so1 : Int
  so2 : Int
  so3 : Int
deriving DecidableEq

/-- Wrapped-library calls emitted by the embedding, with payloads where a
claim depends on the marshaled arguments. -/
inductive LibCall where
  | pl_renderer_destroy
  | pl_swapchain_destroy
  | vkDestroySurfaceKHR
  | pl_vulkan_destroy
  | pl_log_destroy
  | free_gpu_ctx
  | pl_log_create
  | pl_vulkan_create
  | sdl_vulkan_create_surface
  | pl_vulkan_create_swapchain
  | sdl_get_window_size
  | pl_swapchain_resize
  | pl_renderer_create
  | pl_swapchain_start_frame
  | pl_frame_from_swapchain
  | pl_swapchain_swap_buffers
  | pl_swapchain_submit_frame
  | pl_unmap_avframe
  | sws_getContext
  | av_hwframe_transfer_data
  | av_frame_get_buffer
  | sws_scale
  | pl_map_avframe_ex (frame : AvFrame)
  | pl_tex_destroy
  | sws_freeContext
  | free_frame_ctx
  | pl_find_named_fmt
  | pl_tex_create
  | pl_frame_clear_rgba (r g b a : Rat)
  | pl_dispatch_begin
  | pl_find_vertex_fmt
  | pl_shader_custom (p : CustomShaderParams)
  | pl_shader_custom_lut
  | pl_dispatch_abort
  | pl_shader_finalize
  | pl_dispatch_finish (p : DispatchParams)
  | pl_dispatch_create
  | pl_dispatch_destroy
  | free_mix_ctx
  | pl_lut_parse_cube
  | pl_lut_free
  | pl_shader_obj_destroy
  | free_lut
  | sdl_gl_swap_window
deriving DecidableEq

/-- One observable event: a diagnostic line written to stderr, or a
wrapped-library call. -/
inductive Ev where
  | msg (s : String)
  | call (c : LibCall)
deriving DecidableEq

/-- Result of a destroy function operating on a `T **` cell. -/
structure DRes (σ : Type) (ρ : Type) where
  out : Outcome ρ
  cell : Option (Option σ)
  tr : List Ev
deriving DecidableEq

/-- `gfx_lowlevel_gpu_ctx_destroy` (gfxlowlevel.c lines 22-43).  Releases
the non-NULL handles in the order renderer, swapchain, surface, vulkan,
log, frees the struct and NULLs the cell.  Destroying the surface reads
`(*ctx)->vk->instance`, so a context with a surface but no vulkan handle
is undefined behaviour. -/
def gfx_lowlevel_gpu_ctx_destroy : Option (Option GpuCtx) → DRes GpuCtx Unit
  | none => ⟨.ret (), none, []⟩
  | some none => ⟨.ret (), some none, []⟩
  | some (some c) =>
    let t1 := if c.renderer.isSome then [Ev.call .pl_renderer_destroy] else []
    let t2 := if c.swchain.isSome then [Ev.call .pl_swapchain_destroy] else []
    if c.vk_surface.isSome && c.vk.isNone then
      ⟨.ub, some (some c), t1 ++ t2⟩
    else
      let t3 := if c.vk_surface.isSome then [Ev.call .vkDestroySurfaceKHR] else []
      let t4 := if c.vk.isSome then [Ev.call .pl_vulkan_destroy] else []
      let t5 := if c.log.isSome then [Ev.call .pl_log_destroy] else []
      ⟨.ret (), some none, t1 ++ t2 ++ t3 ++ t4 ++ t5 ++ [Ev.call .free_gpu_ctx]⟩

/-- `gfx_lowlevel_frame_ctx_destroy` (gfxlowlevel.c lines 340-363).  The
guard also requires a live backref with a swapchain and a GPU; reading
`ctx_backref->vk->gpu` with a NULL `vk` is undefined behaviour.  When the
guard fails the call is a no-op. -/
def gfx_lowlevel_frame_ctx_destroy : Option (Option FrameCtx) → DRes FrameCtx Unit
  | none => ⟨.ret (), none, []⟩
  | some none => ⟨.ret (), some none, []⟩
  | some (some f) =>
    match f.ctx_backref with
    | none => ⟨.ret (), some (some f), []⟩
    | some cb =>
      if cb.swchain.isNone then ⟨.ret (), some (some f), []⟩
      else
        match cb.vk with
        | none => ⟨.ub, some (some f), []⟩
        | some vkh =>
          if vkh.gpu.isNone then ⟨.ret (), some (some f), []⟩
          else
            let t0 := if f.is_mapped then [Ev.call .pl_unmap_avframe] else []
            let t1 := f.tex.filterMap fun t =>
              if t.isSome then some (Ev.call .pl_tex_destroy) else none
            let t2 := if f.to_rgba.isSome then [Ev.call .sws_freeContext] else []
            ⟨.ret (), some none, t0 ++ t1 ++ t2 ++ [Ev.call .free_frame_ctx]⟩

/-- `gfx_lowlevel_mix_ctx_destroy` (gfxlowlevel.c lines 623-640).  Frees
the copied strings and variable array; iterating `num_vars` entries of a
NULL or too-short `vars` array is undefined behaviour. -/
def gfx_lowlevel_mix_ctx_destroy : Option (Option MixCtx) → DRes MixCtx Unit
  | none => ⟨.ret (), none, []⟩
  | some none => ⟨.ret (), some none, []⟩
  | some (some m) =>
    if 0 < m.num_vars.toNat && (m.vars.getD []).length < m.num_vars.toNat then
      ⟨.ub, some (some m), []⟩
    else
      let t1 := if m.dispatch.isSome then [Ev.call .pl_dispatch_destroy] else []
      ⟨.ret (), some none, t1 ++ [Ev.call .free_mix_ctx]⟩

/-- `gfx_lowlevel_destroy_lut` (gfxlowlevel.c lines 696-709).  Returns 0
on every path. -/
def gfx_lowlevel_destroy_lut : Option (Option Lut) → DRes Lut Int
  | none => ⟨.ret 0, none, []⟩
  | some none => ⟨.ret 0, some none, []⟩
  | some (some l) =>
    let t1 := if l.lut.isSome then [Ev.call .pl_lut_free] else []
    let t2 := if l.lut_state.isSome then [Ev.call .pl_shader_obj_destroy] else []
    ⟨.ret 0, some none, t1 ++ t2 ++ [Ev.call .free_lut]⟩

/-- Outcomes of the wrapped-library calls made by
`gfx_lowlevel_gpu_ctx_init`. -/
structure InitOracle where
  malloc_ok : Bool
  log : Option Nat
  vk : Option VkHandle
  surface : Option Nat
  swchain : Option Nat
  resize_ok : Bool
  renderer : Option Nat

/-- Result of `gfx_lowlevel_gpu_ctx_init`. -/
structure InitRes where
  out : Outcome (Option GpuCtx)
  tr : List Ev
deriving DecidableEq

/-- `gfx_lowlevel_gpu_ctx_init` (gfxlowlevel.c lines 59-145).  Acquires
log, vulkan context, vulkan surface, swapchain, renderer in that order;
on failure of any step except surface creation it destroys the partial
context.  On surface-creation failure the C code returns NULL without
cleanup. -/
def gfx_lowlevel_gpu_ctx_init (o : InitOracle) (window : Option Nat) : InitRes :=
  if !o.malloc_ok then
    ⟨.ret none, [Ev.msg "Failed to allocate memory for gfx_ctx"]⟩
  else
    let c0 : GpuCtx :=
      { shared_window := window, vk := none, vk_surface := none, swchain := none,
        swap_frame := none, window_frame := plFrameZero, renderer := none,
        log := none, started := false }
    let tr0 := [Ev.call .pl_log_create]
    match o.log with
    | none =>
      let d := gfx_lowlevel_gpu_ctx_destroy (some (some c0))
      ⟨.ret none, tr0 ++ [Ev.msg "Failed to create libplacebo log"] ++ d.tr⟩
    | some lg =>
      let c1 := { c0 with log := some lg }
      let tr1 := tr0 ++ [Ev.call .pl_vulkan_create]
      match o.vk with
      | none =>
        let d := gfx_lowlevel_gpu_ctx_destroy (some (some c1))
        ⟨.ret none, tr1 ++ [Ev.msg "Failed to create libplacebo Vulkan context"] ++ d.tr⟩
      | some vkh =>
        let c2 := { c1 with vk := some vkh }
        let tr2 := tr1 ++ [Ev.call .sdl_vulkan_create_surface]
        match o.surface with
        | none =>
          ⟨.ret none, tr2 ++ [Ev.msg "Failed to create Vulkan surface"]⟩
        | some sf =>
          let c3 := { c2 with vk_surface := some sf }
          let tr3 := tr2 ++ [Ev.call .pl_vulkan_create_swapchain]
          match o.swchain with
          | none =>
            let d := gfx_lowlevel_gpu_ctx_destroy (some (some c3))
            ⟨.ret none, tr3 ++ [Ev.msg "Failed to create libplacebo swapchain"] ++ d.tr⟩
          | some sw =>
            let c4 := { c3 with swchain := some sw }
            let tr4 := tr3 ++ [Ev.call .sdl_get_window_size, Ev.call .pl_swapchain_resize]
            if !o.resize_ok then
              let d := gfx_lowlevel_gpu_ctx_destroy (some (some c4))
              ⟨.ret none, tr4 ++ [Ev.msg "Failed to resize swapchain"] ++ d.tr⟩
            else
              let tr5 := tr4 ++ [Ev.call .pl_renderer_create]
              match o.renderer with
              | none =>
                let d := gfx_lowlevel_gpu_ctx_destroy (some (some c4))
                ⟨.ret none, tr5 ++ [Ev.msg "Failed to create libplacebo renderer"] ++ d.tr⟩
              | some rd =>
                ⟨.ret (some { c4 with renderer := some rd }), tr5⟩

/-- Result of `gfx_lowlevel_gpu_ctx_handle_resize`. -/
structure ResizeRes where
  out : Outcome Int
  ctx : Option GpuCtx
  tr : List Ev
deriving DecidableEq

/-- `gfx_lowlevel_gpu_ctx_handle_resize` (gfxlowlevel.c lines 147-160). -/
def gfx_lowlevel_gpu_ctx_handle_resize (o : Bool) (ctx : Option GpuCtx)
    (_width _height : Int) : ResizeRes :=
  match ctx with
  | none => ⟨.ret (-1), none, [Ev.msg "Invalid context or swapchain"]⟩
  | some c =>
    if c.swchain.isNone then
      ⟨.ret (-1), some c, [Ev.msg "Invalid context or swapchain"]⟩
    else if o then
      ⟨.ret 0, some c, [Ev.call .pl_swapchain_resize]⟩
    else
      ⟨.ret (-1), some c,
        [Ev.call .pl_swapchain_resize, Ev.msg "Failed to resize swapchain"]⟩

/-- Result of `gfx_lowlevel_gpu_ctx_start_frame`. -/
structure StartRes where
  out : Outcome Bool
  ctx : Option GpuCtx
  tr : List Ev
deriving DecidableEq

/-- `gfx_lowlevel_gpu_ctx_start_frame` (gfxlowlevel.c lines 163-175).
The function asserts a non-NULL context with a swapchain and
`started == false`; `o` is the success of `pl_swapchain_start_frame`
and `sf` the swapchain frame it produces. -/
def gfx_lowlevel_gpu_ctx_start_frame (o : Bool) (sf : Nat)
    (ctx : Option GpuCtx) : StartRes :=
  match ctx with
  | none => ⟨.assertFail, none, []⟩
  | some c =>
    if c.swchain.isNone then ⟨.assertFail, some c, []⟩
    else if c.started then ⟨.assertFail, some c, []⟩
    else if o then
      ⟨.ret true,
        some { c with started := true, swap_frame := some sf,
                      window_frame := { plFrameZero with from_swapchain := some sf } },
        [Ev.call .pl_swapchain_start_frame, Ev.call .pl_frame_from_swapchain]⟩
    else
      ⟨.ret false, some c, [Ev.call .pl_swapchain_start_frame]⟩

/-- Result of `gfx_lowlevel_gpu_ctx_finish_frame`. -/
structure FinishRes where
  out : Outcome Int
  ctx : Option GpuCtx
  tr : List Ev
deriving DecidableEq

/-- `gfx_lowlevel_gpu_ctx_finish_frame` (gfxlowlevel.c lines 561-569).
Asserts a non-NULL context with a swapchain and `started == true`. -/
def gfx_lowlevel_gpu_ctx_finish_frame (ctx : Option GpuCtx) : FinishRes :=
  match ctx with
  | none => ⟨.assertFail, none, []⟩
  | some c =>
    if c.swchain.isNone then ⟨.assertFail, some c, []⟩
    else if !c.started then ⟨.assertFail, some c, []⟩
    else
      ⟨.ret 0, some { c with started := false },
        [Ev.call .pl_swapchain_swap_buffers, Ev.call .pl_swapchain_submit_frame]⟩

/-- Result of `gfx_lowlevel_swapwindow`. -/
structure SwapWinRes where
  out : Outcome Unit
  tr : List Ev
deriving DecidableEq

/-- `gfx_lowlevel_swapwindow` (gfxlowlevel.c lines 53-57). -/
def gfx_lowlevel_swapwindow (ctx : Option GpuCtx) : SwapWinRes :=
  match ctx with
  | none => ⟨.ret (), []⟩
  | some c =>
    if c.shared_window.isSome then ⟨.ret (), [Ev.call .sdl_gl_swap_window]⟩
    else ⟨.ret (), []⟩

/-- Outcomes of the wrapped-library calls made by
`gfx_lowlevel_map_frame_ctx`. -/
structure MapOracle where
  sws_ok : Bool
  tmp_alloc_ok : Bool
  hw_transfer_ret : Int
  rgba_alloc_ok : Bool
  get_buffer_ret : Int
  sws_scale_ret : Int
  map_ret : Int
deriving DecidableEq

/-- Result of `gfx_lowlevel_map_frame_ctx`. -/
structure MapRes where
  out : Outcome Int
  ctx : Option GpuCtx
  dst : Option FrameCtx
  tr : List Ev
deriving DecidableEq

/-- The `SwsContext` created on first use in `gfx_lowlevel_map_frame_ctx`
for source frame `s`: VideoToolbox frames are converted as NV12. -/
def mkSws (s : AvFrame) : SwsCtx :=
  { srcW := s.width, srcH := s.height,
    srcFmt := if s.format = .videotoolbox then .nv12 else s.format,
    dstW := s.width, dstH := s.height, dstFmt := .rgba }

/-- Final part of `gfx_lowlevel_map_frame_ctx` (gfxlowlevel.c lines
257-273): `pl_map_avframe_ex` of `map_src` into `dst->pl_frame`, setting
`is_mapped` on success.  Reads `ctx->vk->gpu`. -/
def mapFinish (o : MapOracle) (c : GpuCtx) (d : FrameCtx) (map_src : AvFrame)
    (tr : List Ev) : MapRes :=
  match c.vk with
  | none => ⟨.ub, some c, some d, tr⟩
  | some _ =>
    let tr1 := tr ++ [Ev.call (.pl_map_avframe_ex map_src)]
    if o.map_ret < 0 then
      ⟨.ret o.map_ret, some c, some d,
        tr1 ++ [Ev.msg "Failed to map AVFrame to libplacebo frame"]⟩
    else
      ⟨.ret 0, some c,
        some { d with is_mapped := true, pl_frame := mappedPlFrame map_src }, tr1⟩

/-- RGBA-conversion part of `gfx_lowlevel_map_frame_ctx` (gfxlowlevel.c
lines 223-255): when `dst->to_rgba` is non-NULL the (possibly
hw-transferred) source frame is scaled to a fresh RGBA frame which
becomes `map_src`; otherwise the source frame is mapped directly. -/
def mapConvert (o : MapOracle) (c : GpuCtx) (d : FrameCtx) (s : AvFrame)
    (tr : List Ev) : MapRes :=
  match d.to_rgba with
  | some _ =>
    if !o.rgba_alloc_ok then
      ⟨.ret ENOMEM, some c, some d, tr ++ [Ev.msg "Failed to allocate temporary AVFrame"]⟩
    else
      let tr1 := tr ++ [Ev.call .av_frame_get_buffer]
      if o.get_buffer_ret < 0 then
        ⟨.ret o.get_buffer_ret, some c, some d,
          tr1 ++ [Ev.msg "Failed to allocate hw frame buffer"]⟩
      else
        let tr2 := tr1 ++ [Ev.call .sws_scale]
        if o.sws_scale_ret < 0 then
          ⟨.ret o.sws_scale_ret, some c, some d,
            tr2 ++ [Ev.msg "Failed to scale frame"]⟩
        else
          mapFinish o c d (rgbaOf s) tr2
  | none => mapFinish o c d s tr

/-- Middle part of `gfx_lowlevel_map_frame_ctx` (gfxlowlevel.c lines
200-221), after the `SwsContext` has been ensured: unmaps a previously
mapped frame, and transfers a VideoToolbox frame to NV12 software
memory — calling `exit(1)` if the transfer fails — before converting
and mapping. -/
def mapAfterSws (o : MapOracle) (c : GpuCtx) (d1 : FrameCtx) (s : AvFrame)
    (trs : List Ev) : MapRes :=
  if d1.is_mapped && c.vk.isNone then
    ⟨.ub, some c, some d1, trs⟩
  else
    let tr0 := trs ++ if d1.is_mapped then [Ev.call .pl_unmap_avframe] else []
    if s.format = .videotoolbox then
      if !o.tmp_alloc_ok then
        ⟨.ret ENOMEM, some c, some d1,
          tr0 ++ [Ev.msg "Failed to allocate temporary AVFrame"]⟩
      else
        let tr1 := tr0 ++ [Ev.call .av_hwframe_transfer_data]
        if o.hw_transfer_ret < 0 then
          ⟨.exits 1, some c, some d1, tr1 ++ [Ev.msg "Failed to transfer data"]⟩
        else
          mapConvert o c d1 (hwTransferred s) tr1
    else
      mapConvert o c d1 s tr0

/-- `gfx_lowlevel_map_frame_ctx` (gfxlowlevel.c lines 177-274).  Creates
the `SwsContext` on first use, unmaps a previously mapped frame,
transfers a VideoToolbox frame to NV12 software memory — calling
`exit(1)` if the transfer fails — converts to RGBA and maps the result
into `dst->pl_frame`. -/
def gfx_lowlevel_map_frame_ctx (o : MapOracle) (ctx : Option GpuCtx)
    (dst : Option FrameCtx) (src : Option AvFrame) : MapRes :=
  match ctx, dst, src with
  | some c, some d0, some s =>
    let swsRes : Option FrameCtx :=
      match d0.to_rgba with
      | some _ => some d0
      | none => if o.sws_ok then some { d0 with to_rgba := some (mkSws s) } else none
    match swsRes with
    | none =>
      ⟨.ret ENOMEM, ctx, some d0,
        [Ev.call .sws_getContext, Ev.msg "Failed to create sws context"]⟩
    | some d1 =>
      mapAfterSws o c d1 s
        (if d0.to_rgba.isNone then [Ev.call .sws_getContext] else [])
  | _, _, _ => ⟨.ret EINVAL, ctx, dst, [Ev.msg "Invalid context or frame"]⟩

/-- Result of `gfx_lowlevel_frame_ctx_init`. -/
structure FrameInitRes where
  out : Outcome (Option FrameCtx)
  ctx : Option GpuCtx
  tr : List Ev
deriving DecidableEq

/-- `gfx_lowlevel_frame_ctx_init` (gfxlowlevel.c lines 323-338).
`alloc_ok` is the success of `malloc`. -/
def gfx_lowlevel_frame_ctx_init (alloc_ok : Bool) (ctx : Option GpuCtx) :
    FrameInitRes :=
  match ctx with
  | none => ⟨.ret none, none, [Ev.msg "Invalid context"]⟩
  | some c =>
    if !alloc_ok then
      ⟨.ret none, some c, [Ev.msg "Failed to allocate memory for gfx_lowlevel_frame"]⟩
    else
      ⟨.ret (some
        { is_mapped := false, pl_frame := plFrameZero,
          tex := [none, none, none, none], ctx_backref := some c,
          to_rgba := none }), some c, []⟩

/-- Outcomes of the wrapped-library calls made by
`gfx_lowlevel_frame_create_texture`. -/
structure CreateTexOracle where
  fmt : Option FmtInfo
  tex : Option Tex
deriving DecidableEq

/-- Result of `gfx_lowlevel_frame_create_texture`. -/
structure CreateTexRes where
  out : Outcome Int
  ctx : Option GpuCtx
  frame : Option FrameCtx
  tr : List Ev
deriving DecidableEq

/-- `gfx_lowlevel_frame_create_texture` (gfxlowlevel.c lines 276-321).
Creates an rgba8 texture in `frame->tex[0]` and points
`frame->pl_frame` at it.  Reads `ctx->vk->gpu`. -/
def gfx_lowlevel_frame_create_texture (o : CreateTexOracle)
    (ctx : Option GpuCtx) (frame : Option FrameCtx)
    (_width _height : Int) : CreateTexRes :=
  match ctx, frame with
  | some c, some f =>
    if c.vk.isNone then ⟨.ub, ctx, frame, []⟩
    else
      let tr0 := [Ev.call .pl_find_named_fmt]
      match o.fmt with
      | none => ⟨.ret EINVAL, ctx, frame, tr0 ++ [Ev.msg "Failed to find format"]⟩
      | some fmt =>
        let tr1 := tr0 ++ [Ev.call .pl_tex_create]
        match o.tex with
        | none => ⟨.ret EINVAL, ctx, frame, tr1 ++ [Ev.msg "Failed to create texture"]⟩
        | some t =>
          let f1 :=
            { f with
              tex := f.tex.set 0 (some t),
              pl_frame :=
                { f.pl_frame with
                  num_planes := 1, plane0_texture := some t,
                  plane0_components := fmt.num_components,
                  plane0_mapping := [fmt.so0, fmt.so1, fmt.so2, fmt.so3],
                  color_repr_unknown := true, color_space_unknown := true } }
          ⟨.ret 0, ctx, some f1, tr1⟩
  | _, _ => ⟨.ret EINVAL, ctx, frame, [Ev.msg "Invalid context or frame"]⟩

/-- Result of `gfx_lowlevel_frame_clear`. -/
structure ClearRes where
  out : Outcome Int
  ctx : Option GpuCtx
  tr : List Ev
deriving DecidableEq

/-- `gfx_lowlevel_frame_clear` (gfxlowlevel.c lines 365-375).  Reads
`ctx->vk->gpu`. -/
def gfx_lowlevel_frame_clear (ctx : Option GpuCtx) (dst_frame : Option PlFrame)
    (r g b a : Rat) : ClearRes :=
  match ctx, dst_frame with
  | some c, some _ =>
    if c.vk.isNone then ⟨.ub, ctx, []⟩
    else ⟨.ret 0, ctx, [Ev.call (.pl_frame_clear_rgba r g b a)]⟩
  | _, _ => ⟨.ret EINVAL, ctx, [Ev.msg "Invalid context or frame"]⟩

/-- Outcomes of the allocations and wrapped-library calls made by
`gfx_lowlevel_gpu_ctx_render`.  Per-iteration allocations are indexed by
the loop counter. -/
structure RenderOracle where
  dispatch_begin_ok : Bool
  descs_alloc_ok : Bool
  desc_name_alloc : Nat → Bool
  attribs_alloc_ok : Bool
  attr_name_alloc : Nat → Bool
  verts_alloc : Nat → Bool
  shader_custom_ok : Bool
  finalize_ok : Bool
  dispatch_finish_ok : Bool

/-- Result of building one of the per-frame arrays in
`gfx_lowlevel_gpu_ctx_render`: the built entries, a failed allocation
(surfaced as `ENOMEM`), or undefined behaviour from reading a NULL or
out-of-bounds `src_frames` entry. -/
inductive BuildRes (α : Type) where
  | ok (xs : List α)
  | fail
  | ub
deriving DecidableEq

/-- The shader descriptor built for loop index `i` in
`gfx_lowlevel_gpu_ctx_render` (gfxlowlevel.c lines 403-423), bound to
`src_frames[i]->planes[0].texture`. -/
def descFor (i : Nat) (f : PlFrame) : PlShaderDesc :=
  { name := "src_tex" ++ toString i, dtype := .sampled_tex, binding := i,
    access := .readonly, object := f.plane0_texture,
    address_mode := .addrRepeat, sample_mode := .linear }

/-- Descriptor-building loop of `gfx_lowlevel_gpu_ctx_render`
(gfxlowlevel.c lines 403-423), over the list of loop indices. -/
def buildDescs (o : RenderOracle) (srcs : List (Option PlFrame)) :
    List Nat → BuildRes PlShaderDesc
  | [] => .ok []
  | i :: rest =>
    if !o.desc_name_alloc i then .fail
    else
      match srcs.getD i none with
      | none => .ub
      | some f =>
        match buildDescs o srcs rest with
        | .ok xs => .ok (descFor i f :: xs)
        | r => r

/-- The vertex attribute built for loop index `i` in
`gfx_lowlevel_gpu_ctx_render` (gfxlowlevel.c lines 434-470), carrying
the four corners of `params->src`. -/
def attribFor (i : Nat) (src : Rect2DF) : PlShaderVa :=
  { name := "src_coord" ++ toString i, offset := 0, fmtIsFloat := true,
    fmtComponents := 2,
    data := [(src.x0, src.y0), (src.x1, src.y0), (src.x0, src.y1), (src.x1, src.y1)] }

/-- Vertex-attribute-building loop of `gfx_lowlevel_gpu_ctx_render`
(gfxlowlevel.c lines 434-470), over the list of loop indices. -/
def buildAttribs (o : RenderOracle) (src : Rect2DF) :
    List Nat → BuildRes PlShaderVa
  | [] => .ok []
  | i :: rest =>
    if !o.attr_name_alloc i then .fail
    else if !o.verts_alloc i then .fail
    else
      match buildAttribs o src rest with
      | .ok xs => .ok (attribFor i src :: xs)
      | r => r

/-- Result of `gfx_lowlevel_gpu_ctx_render`. -/
structure RenderRes where
  out : Outcome Int
  ctx : Option GpuCtx
  tr : List Ev
deriving DecidableEq

/-- `gfx_lowlevel_gpu_ctx_render` (gfxlowlevel.c lines 377-559).
Null-checks `ctx`, `src_frames`, `dst_frame` and `params` (but not
`mix_ctx`, which is dereferenced by `pl_dispatch_begin`), builds one
sampled-texture descriptor and one vertex attribute per source frame,
hands them with the caller's shader text and variables to
`pl_shader_custom`, and either dispatches to the target texture or, in
debug mode, finalizes the shader — calling `exit(1)` if finalization
fails. -/
def gfx_lowlevel_gpu_ctx_render (o : RenderOracle) (ctx : Option GpuCtx)
    (mix_ctx : Option MixCtx) (params : Option FilterParams)
    (dst_frame : Option PlFrame) (src_frames : Option (List (Option PlFrame)))
    (num_frames : Nat) (lut : Option Lut) (debug : Bool) : RenderRes :=
  match ctx, src_frames, dst_frame, params with
  | some _, some srcs, some d, some p =>
    match mix_ctx with
    | none => ⟨.ub, ctx, []⟩
    | some _ =>
      let tr0 := [Ev.call .pl_dispatch_begin]
      if !o.dispatch_begin_ok then
        ⟨.ret EINVAL, ctx, tr0 ++ [Ev.msg "Failed to begin dispatch"]⟩
      else if !o.descs_alloc_ok then
        ⟨.ret ENOMEM, ctx,
          tr0 ++ [Ev.msg "Failed to allocate memory for shader descriptors"]⟩
      else
        match buildDescs o srcs (List.range num_frames) with
        | .fail =>
          ⟨.ret ENOMEM, ctx, tr0 ++ [Ev.msg "Failed to allocate memory for shader name"]⟩
        | .ub => ⟨.ub, ctx, tr0⟩
        | .ok descs =>
          if !o.attribs_alloc_ok then
            ⟨.ret ENOMEM, ctx,
              tr0 ++ [Ev.msg "Failed to allocate memory for shader attributes"]⟩
          else
            match buildAttribs o p.src (List.range num_frames) with
            | .fail =>
              ⟨.ret ENOMEM, ctx,
                tr0 ++ [Ev.msg "Failed to allocate memory for shader name"]⟩
            | .ub => ⟨.ub, ctx, tr0⟩
            | .ok attribs =>
              let shp : CustomShaderParams :=
                { description := "Return src tex", sh_prelude := p.sh_prelude,
                  header := p.header, body := p.body,
                  input := .sigNone, output := .sigColor,
                  descriptors := descs, num_descriptors := num_frames,
                  shader_vars := p.vars, num_variables := p.num_vars,
                  vertex_attribs := attribs, num_vertex_attribs := num_frames,
                  num_constants := 0, compute := false }
              let tr1 := tr0 ++ [Ev.call (.pl_shader_custom shp)]
              if !o.shader_custom_ok then
                ⟨.ret EINVAL, ctx, tr1 ++ [Ev.msg "Failed to create custom shader"]⟩
              else
                let tr2 := tr1 ++
                  match lut with
                  | some l => if l.lut.isSome then [Ev.call .pl_shader_custom_lut] else []
                  | none => []
                if debug then
                  let tr3 := tr2 ++ [Ev.call .pl_dispatch_abort, Ev.call .pl_shader_finalize]
                  if !o.finalize_ok then
                    ⟨.exits 1, ctx, tr3 ++ [Ev.msg "Failed to finalize shader"]⟩
                  else
                    ⟨.ret 0, ctx, tr3 ++ [Ev.msg "Shader finalized successfully"]⟩
                else
                  match d.plane0_texture with
                  | none => ⟨.ub, ctx, tr2⟩
                  | some t =>
                    let dp : DispatchParams :=
                      { target := t,
                        rect_x0 := p.dst.x0 * (t.w : Rat),
                        rect_y0 := p.dst.y0 * (t.h : Rat),
                        rect_x1 := p.dst.x1 * (t.w : Rat),
                        rect_y1 := p.dst.y1 * (t.h : Rat) }
                    let tr3 := tr2 ++ [Ev.call (.pl_dispatch_finish dp)]
                    if !o.dispatch_finish_ok then
                      ⟨.ret EINVAL, ctx, tr3 ++ [Ev.msg "Failed to finish dispatch"]⟩
                    else
                      ⟨.ret 0, ctx, tr3⟩
  | _, _, _, _ => ⟨.ret EINVAL, ctx, [Ev.msg "Invalid context or frame"]⟩

/-- Outcomes of the allocations and wrapped-library calls made by
`gfx_lowlevel_mix_ctx_init`. -/
structure MixInitOracle where
  alloc_ok : Bool
  prelude_alloc_ok : Bool
  header_alloc_ok : Bool
  body_alloc_ok : Bool
  vars_alloc_ok : Bool
  dispatch : Option Nat
deriving DecidableEq

/-- Result of `gfx_lowlevel_mix_ctx_init`. -/
structure MixInitRes where
  out : Outcome (Option MixCtx)
  ctx : Option GpuCtx
  tr : List Ev
deriving DecidableEq

/-- `gfx_lowlevel_mix_ctx_init` (gfxlowlevel.c lines 571-621).  Copies
the shader strings and variable array into a fresh mix context and
creates the dispatcher; a failed string `malloc` is followed by an
unchecked `strncpy` into the NULL pointer, and copying `num_vars`
entries from a NULL or too-short `vars` array reads out of bounds. -/
def gfx_lowlevel_mix_ctx_init (o : MixInitOracle) (ctx : Option GpuCtx)
    (sh_prelude header body : Option String)
    (vars : Option (List ShaderVarC)) (num_vars : Int) : MixInitRes :=
  match ctx with
  | none => ⟨.ret none, none, [Ev.msg "Invalid context"]⟩
  | some c =>
    if !o.alloc_ok then
      ⟨.ret none, some c, [Ev.msg "Failed to allocate memory for gfx_lowlevel_mix_ctx"]⟩
    else if sh_prelude.isSome && !o.prelude_alloc_ok then ⟨.ub, some c, []⟩
    else if header.isSome && !o.header_alloc_ok then ⟨.ub, some c, []⟩
    else if body.isSome && !o.body_alloc_ok then ⟨.ub, some c, []⟩
    else
      let m0 : MixCtx :=
        { ctx := some c, sh_prelude := sh_prelude, header := header, body := body,
          vars := none, num_vars := 0, dispatch := none }
      if !o.vars_alloc_ok then
        let d := gfx_lowlevel_mix_ctx_destroy (some (some m0))
        ⟨.ret none, some c,
          [Ev.msg "Failed to allocate memory for shader variables"] ++ d.tr⟩
      else if (vars.getD []).length < num_vars.toNat then
        ⟨.ub, some c, []⟩
      else
        let m1 := { m0 with vars := some ((vars.getD []).take num_vars.toNat),
                            num_vars := num_vars }
        let tr1 := [Ev.call .pl_dispatch_create]
        match o.dispatch with
        | none =>
          let d := gfx_lowlevel_mix_ctx_destroy (some (some m1))
          ⟨.ret none, some c, tr1 ++ [Ev.msg "Failed to create dispatch"] ++ d.tr⟩
        | some dp =>
          ⟨.ret (some { m1 with dispatch := some dp }), some c, tr1⟩

/-- Outcomes of the allocations, file operations and wrapped-library
calls made by `gfx_lowlevel_init_lut`. -/
structure LutInitOracle where
  alloc_ok : Bool
  name_alloc_ok : Bool
  fopen_ok : Bool
  contents_alloc_ok : Bool
  parsed : Option Nat
deriving DecidableEq

/-- Result of `gfx_lowlevel_init_lut`. -/
structure LutInitRes where
  out : Outcome (Option Lut)
  ctx : Option GpuCtx
  tr : List Ev
deriving DecidableEq

/-- `gfx_lowlevel_init_lut` (gfxlowlevel.c lines 642-694).  Copies the
filename, reads the LUT file and hands its contents to
`pl_lut_parse_cube`; on a parse failure the partially built LUT is
destroyed and NULL returned. -/
def gfx_lowlevel_init_lut (o : LutInitOracle) (ctx : Option GpuCtx)
    (lut_filename : Option String) : LutInitRes :=
  match ctx, lut_filename with
  | some c, some fn =>
    if !o.alloc_ok then
      ⟨.ret none, some c, [Ev.msg "Failed to allocate memory for LUT"]⟩
    else if !o.name_alloc_ok then
      ⟨.ret none, some c, [Ev.msg "Failed to allocate memory for LUT filename"]⟩
    else if !o.fopen_ok then
      ⟨.ret none, some c, [Ev.msg "Failed to open LUT file"]⟩
    else if !o.contents_alloc_ok then
      ⟨.ret none, some c, [Ev.msg "Failed to allocate memory for LUT file contents"]⟩
    else
      let tr1 := [Ev.call .pl_lut_parse_cube]
      match o.parsed with
      | none =>
        let l0 : Lut := { lut_filename := some fn, lut := none, lut_state := none }
        let d := gfx_lowlevel_destroy_lut (some (some l0))
        ⟨.ret none, some c, tr1 ++ [Ev.msg "Failed to parse LUT file"] ++ d.tr⟩
      | some pl =>
        ⟨.ret (some { lut_filename := some fn, lut := some pl, lut_state := none }),
          some c, tr1⟩
  | _, _ => ⟨.ret none, ctx, [Ev.msg "Invalid context or LUT filename"]⟩

/-- The five resources owned by a `gfx_lowlevel_gpu_ctx`. -/
inductive Res where
  | log
  | vk
  | surface
  | swchain
  | renderer
deriving DecidableEq

/-- Which resource (if any) an event acquires. -/
def acqOf : Ev → Option Res
  | .call .pl_log_create => some .log
  | .call .pl_vulkan_create => some .vk
  | .call .sdl_vulkan_create_surface => some .surface
  | .call .pl_vulkan_create_swapchain => some .swchain
  | .call .pl_renderer_create => some .renderer
  | _ => none

/-- The library call that releases each resource. -/
def relEv : Res → Ev
  | .log => .call .pl_log_destroy
  | .vk => .call .pl_vulkan_destroy
  | .surface => .call .vkDestroySurfaceKHR
  | .swchain => .call .pl_swapchain_destroy
  | .renderer => .call .pl_renderer_destroy

/-- The order in which `gfx_lowlevel_gpu_ctx_init` acquires its
resources. -/
def acquireOrder : List Res := [.log, .vk, .surface, .swchain, .renderer]

/-- Whether a context currently holds a resource (the handle is
non-NULL). -/
def holds (c : GpuCtx) : Res → Bool
  | .log => c.log.isSome
  | .vk => c.vk.isSome
  | .surface => c.vk_surface.isSome
  | .swchain => c.swchain.isSome
  | .renderer => c.renderer.isSome

/-- A fully initialized context used to instantiate universally
quantified theorems at concrete inputs. -/
def ctxFull : GpuCtx :=
  { shared_window := some 7, vk := some ⟨2, some 3⟩, vk_surface := some 4,
    swchain := some 5, swap_frame := none, window_frame := plFrameZero,
    renderer := some 6, log := some 1, started := false }

/-- An all-success oracle for `gfx_lowlevel_gpu_ctx_init` producing
`ctxFull`. -/
def oInitFull : InitOracle :=
  { malloc_ok := true, log := some 1, vk := some ⟨2, some 3⟩, surface := some 4,
    swchain := some 5, resize_ok := true, renderer := some 6 }

/-- C1: every destroy operation (`gfx_lowlevel_gpu_ctx_destroy`,
`gfx_lowlevel_frame_ctx_destroy`, `gfx_lowlevel_mix_ctx_destroy`,
`gfx_lowlevel_destroy_lut`) is idempotent and null-safe: called on a
NULL handle pointer or a pointer to a NULL handle it is a no-op, and
any call that frees the handle leaves the pointed-to handle NULL, so a
second call on the same pointer is a no-op. -/
theorem claim_C1 :
    (gfx_lowlevel_gpu_ctx_destroy none = ⟨.ret (), none, []⟩ ∧
     gfx_lowlevel_gpu_ctx_destroy (some none) = ⟨.ret (), some none, []⟩ ∧
     ∀ cell cell' tr, gfx_lowlevel_gpu_ctx_destroy cell = ⟨.ret (), cell', tr⟩ →
       (Ev.call .free_gpu_ctx ∈ tr → cell' = some none) ∧
       gfx_lowlevel_gpu_ctx_destroy cell' = ⟨.ret (), cell', []⟩) ∧
    (gfx_lowlevel_frame_ctx_destroy none = ⟨.ret (), none, []⟩ ∧
     gfx_lowlevel_frame_ctx_destroy (some none) = ⟨.ret (), some none, []⟩ ∧
     ∀ cell cell' tr, gfx_lowlevel_frame_ctx_destroy cell = ⟨.ret (), cell', tr⟩ →
       (Ev.call .free_frame_ctx ∈ tr → cell' = some none) ∧
       gfx_lowlevel_frame_ctx_destroy cell' = ⟨.ret (), cell', []⟩) ∧
    (gfx_lowlevel_mix_ctx_destroy none = ⟨.ret (), none, []⟩ ∧
     gfx_lowlevel_mix_ctx_destroy (some none) = ⟨.ret (), some none, []⟩ ∧
     ∀ cell cell' tr, gfx_lowlevel_mix_ctx_destroy cell = ⟨.ret (), cell', tr⟩ →
       (Ev.call .free_mix_ctx ∈ tr → cell' = some none) ∧
       gfx_lowlevel_mix_ctx_destroy cell' = ⟨.ret (), cell', []⟩) ∧
    (gfx_lowlevel_destroy_lut none = ⟨.ret 0, none, []⟩ ∧
     gfx_lowlevel_destroy_lut (some none) = ⟨.ret 0, some none, []⟩ ∧
     ∀ cell cell' tr, gfx_lowlevel_destroy_lut cell = ⟨.ret 0, cell', tr⟩ →
       (Ev.call .free_lut ∈ tr → cell' = some none) ∧
       gfx_lowlevel_destroy_lut cell' = ⟨.ret 0, cell', []⟩) := by
  refine ⟨⟨rfl, rfl, ?_⟩, ⟨rfl, rfl, ?_⟩, ⟨rfl, rfl, ?_⟩, ⟨rfl, rfl, ?_⟩⟩
  · rintro (_ | (_ | c)) cell' tr h
    · cases h; exact ⟨fun hm => absurd hm (by simp), rfl⟩
    · cases h; exact ⟨fun hm => absurd hm (by simp), rfl⟩
    · obtain ⟨w9, vk9, vs9, sw9, sf9, wf9, rd9, lg9, st9⟩ := c
      rcases vs9 with _ | vs9 <;> rcases vk9 with _ | vk9
      · cases h; exact ⟨fun _ => rfl, rfl⟩
      · cases h; exact ⟨fun _ => rfl, rfl⟩
      · simp [gfx_lowlevel_gpu_ctx_destroy] at h
      · cases h; exact ⟨fun _ => rfl, rfl⟩
  · rintro (_ | (_ | f)) cell' tr h
    · cases h; exact ⟨fun hm => absurd hm (by simp), rfl⟩
    · cases h; exact ⟨fun hm => absurd hm (by simp), rfl⟩
    · obtain ⟨im, pf, tx, cb, rgba⟩ := f
      rcases cb with _ | cb
      · cases h; exact ⟨fun hm => absurd hm (by simp), rfl⟩
      · obtain ⟨w9, vk9, vs9, sw9, sf9, wf9, rd9, lg9, st9⟩ := cb
        rcases sw9 with _ | sw9
        · cases h; exact ⟨fun hm => absurd hm (by simp), rfl⟩
        · rcases vk9 with _ | ⟨inst9, gpu9⟩
          · simp [gfx_lowlevel_frame_ctx_destroy] at h
          · rcases gpu9 with _ | g9
            · cases h; exact ⟨fun hm => absurd hm (by simp), rfl⟩
            · cases h; exact ⟨fun _ => rfl, rfl⟩
  · rintro (_ | (_ | m)) cell' tr h
    · cases h; exact ⟨fun hm => absurd hm (by simp), rfl⟩
    · cases h; exact ⟨fun hm => absurd hm (by simp), rfl⟩
    · simp only [gfx_lowlevel_mix_ctx_destroy] at h
      split at h
      · simp at h
      · cases h; exact ⟨fun _ => rfl, rfl⟩
  · rintro (_ | (_ | l)) cell' tr h
    · cases h; exact ⟨fun hm => absurd hm (by simp), rfl⟩
    · cases h; exact ⟨fun hm => absurd hm (by simp), rfl⟩
    · cases h; exact ⟨fun _ => rfl, rfl⟩

/-- Witness for C1: the hypotheses of each destroy clause are satisfied
at a concrete freed cell, and the second calls are no-ops. -/
theorem claim_C1_witness :
    ((Ev.call .free_gpu_ctx ∈
        [Ev.call .pl_renderer_destroy, Ev.call .pl_swapchain_destroy,
         Ev.call .vkDestroySurfaceKHR, Ev.call .pl_vulkan_destroy,
         Ev.call .pl_log_destroy, Ev.call .free_gpu_ctx] →
        (some none : Option (Option GpuCtx)) = some none) ∧
      gfx_lowlevel_gpu_ctx_destroy (some none) = ⟨.ret (), some none, []⟩) ∧
    ((Ev.call .free_mix_ctx ∈ [Ev.call .free_mix_ctx] →
        (some none : Option (Option MixCtx)) = some none) ∧
      gfx_lowlevel_mix_ctx_destroy (some none) = ⟨.ret (), some none, []⟩) :=
  ⟨claim_C1.1.2.2 (some (some ctxFull)) (some none)
      [Ev.call .pl_renderer_destroy, Ev.call .pl_swapchain_destroy,
       Ev.call .vkDestroySurfaceKHR, Ev.call .pl_vulkan_destroy,
       Ev.call .pl_log_destroy, Ev.call .free_gpu_ctx] (by decide),
   claim_C1.2.2.1.2.2 (some (some
      { ctx := none, sh_prelude := none, header := none, body := none,
        vars := none, num_vars := 0, dispatch := none })) (some none)
      [Ev.call .free_mix_ctx] (by decide)⟩

/-- C2: `gfx_lowlevel_gpu_ctx_init` acquires log, vulkan context,
vulkan surface, swapchain, renderer in that order, and
`gfx_lowlevel_gpu_ctx_destroy` releases whichever of them are non-NULL
in exactly the reverse order, then frees the struct. -/
theorem claim_C2 :
    (∀ o w c tr, gfx_lowlevel_gpu_ctx_init o w = ⟨.ret (some c), tr⟩ →
       tr.filterMap acqOf = acquireOrder) ∧
    (∀ c : GpuCtx, (c.vk_surface.isSome → c.vk.isSome) →
       gfx_lowlevel_gpu_ctx_destroy (some (some c)) =
         ⟨.ret (), some none,
          (acquireOrder.reverse.filter (holds c)).map relEv ++ [Ev.call .free_gpu_ctx]⟩) := by
  constructor
  · intro o w c tr h
    simp only [gfx_lowlevel_gpu_ctx_init] at h
    rcases hm : o.malloc_ok <;> rw [hm] at h
    · cases h
    rcases ho : o.log with _ | lg <;> rw [ho] at h
    · cases h
    rcases hv : o.vk with _ | vkh <;> rw [hv] at h
    · cases h
    rcases hs : o.surface with _ | sf <;> rw [hs] at h
    · cases h
    rcases hw : o.swchain with _ | sw <;> rw [hw] at h
    · cases h
    rcases hrz : o.resize_ok <;> rw [hrz] at h
    · cases h
    rcases hr : o.renderer with _ | rd <;> rw [hr] at h
    · cases h
    · cases h; decide
  · intro c hc
    obtain ⟨w9, vk9, vs9, sw9, sf9, wf9, rd9, lg9, st9⟩ := c
    rcases vs9 with _ | vs9
    · rcases vk9 with _ | vk9 <;> rcases rd9 with _ | rd9 <;>
        rcases sw9 with _ | sw9 <;> rcases lg9 with _ | lg9 <;> rfl
    · rcases vk9 with _ | vk9
      · exact absurd (hc rfl) (by simp)
      · rcases rd9 with _ | rd9 <;> rcases sw9 with _ | sw9 <;>
          rcases lg9 with _ | lg9 <;> rfl

/-- Witness for C2: a fully successful init acquires all five resources
in order, and destroying the resulting context releases them in reverse
order before freeing the struct. -/
theorem claim_C2_witness :
    ([Ev.call .pl_log_create, Ev.call .pl_vulkan_create,
      Ev.call .sdl_vulkan_create_surface, Ev.call .pl_vulkan_create_swapchain,
      Ev.call .sdl_get_window_size, Ev.call .pl_swapchain_resize,
      Ev.call .pl_renderer_create].filterMap acqOf = acquireOrder) ∧
    gfx_lowlevel_gpu_ctx_destroy (some (some ctxFull)) =
      ⟨.ret (), some none,
       (acquireOrder.reverse.filter (holds ctxFull)).map relEv ++ [Ev.call .free_gpu_ctx]⟩ :=
  ⟨claim_C2.1 oInitFull (some 7) ctxFull
      [Ev.call .pl_log_create, Ev.call .pl_vulkan_create,
       Ev.call .sdl_vulkan_create_surface, Ev.call .pl_vulkan_create_swapchain,
       Ev.call .sdl_get_window_size, Ev.call .pl_swapchain_resize,
       Ev.call .pl_renderer_create] (by decide),
   claim_C2.2 ctxFull (by decide)⟩

/-- C7: `gfx_lowlevel_gpu_ctx_handle_resize` returns the sentinel -1
with a diagnostic message exactly when the context is NULL, its
swapchain is NULL, or the wrapped `pl_swapchain_resize` fails, and
returns 0 (with no diagnostic) otherwise. -/
theorem claim_C7 (o : Bool) (ctx : Option GpuCtx) (w h : Int) :
    ((ctx = none ∨ (∃ c, ctx = some c ∧ c.swchain = none) ∨ o = false) →
       (gfx_lowlevel_gpu_ctx_handle_resize o ctx w h).out = .ret (-1) ∧
       ∃ s, Ev.msg s ∈ (gfx_lowlevel_gpu_ctx_handle_resize o ctx w h).tr) ∧
    ((ctx ≠ none ∧ (∀ c, ctx = some c → c.swchain ≠ none) ∧ o = true) →
       (gfx_lowlevel_gpu_ctx_handle_resize o ctx w h).out = .ret 0 ∧
       ∀ s, Ev.msg s ∉ (gfx_lowlevel_gpu_ctx_handle_resize o ctx w h).tr) := by
  rcases ctx with _ | c
  · exact ⟨fun _ => ⟨rfl, "Invalid context or swapchain", List.mem_singleton.mpr rfl⟩,
      fun hp => absurd rfl hp.1⟩
  · rcases hsw : c.swchain with _ | sw
    · refine ⟨fun _ => ?_, fun hp => absurd hsw (hp.2.1 c rfl)⟩
      simp [gfx_lowlevel_gpu_ctx_handle_resize, hsw]
    · rcases o
      · refine ⟨fun _ => ?_, fun hp => absurd hp.2.2 (by simp)⟩
        simp [gfx_lowlevel_gpu_ctx_handle_resize, hsw]
      · refine ⟨fun hp => ?_, fun _ => ?_⟩
        · rcases hp with h1 | ⟨c', hc', hsw'⟩ | h3
          · cases h1
          · cases hc'; rw [hsw] at hsw'; cases hsw'
          · cases h3
        · simp [gfx_lowlevel_gpu_ctx_handle_resize, hsw]

/-- Witness for C7: at a NULL context the failure branch fires; at a
live context with a swapchain and a successful resize the success
branch returns 0. -/
theorem claim_C7_witness :
    ((gfx_lowlevel_gpu_ctx_handle_resize true none 640 480).out = .ret (-1) ∧
       ∃ s, Ev.msg s ∈ (gfx_lowlevel_gpu_ctx_handle_resize true none 640 480).tr) ∧
    ((gfx_lowlevel_gpu_ctx_handle_resize true (some ctxFull) 640 480).out = .ret 0 ∧
       ∀ s, Ev.msg s ∉ (gfx_lowlevel_gpu_ctx_handle_resize true (some ctxFull) 640 480).tr) :=
  ⟨(claim_C7 true none 640 480).1 (Or.inl rfl),
   (claim_C7 true (some ctxFull) 640 480).2
     ⟨Option.some_ne_none _, fun c hc => by cases hc; decide, rfl⟩⟩

/-- C10: for a non-NULL context, a successful
`gfx_lowlevel_frame_ctx_init` returns a frame context in a fully reset
state — `is_mapped` false, all four texture slots NULL, `to_rgba` NULL,
zeroed `pl_frame`, and `ctx_backref` equal to the context argument —
and it returns NULL when the context is NULL or the allocation fails. -/
theorem claim_C10 (alloc_ok : Bool) (ctx : Option GpuCtx) :
    ((gfx_lowlevel_frame_ctx_init alloc_ok none).out = .ret none) ∧
    (alloc_ok = false → (gfx_lowlevel_frame_ctx_init alloc_ok ctx).out = .ret none) ∧
    (∀ c, ctx = some c → alloc_ok = true →
       (gfx_lowlevel_frame_ctx_init alloc_ok ctx).out = .ret (some
         { is_mapped := false, pl_frame := plFrameZero,
           tex := [none, none, none, none], ctx_backref := some c,
           to_rgba := none })) := by
  refine ⟨rfl, fun ha => ?_, fun c hc ha => ?_⟩
  · rcases ctx with _ | c
    · rfl
    · rw [ha]; rfl
  · cases hc; rw [ha]; rfl

/-- Witness for C10: the success branch at a concrete context and the
failure branches at NULL / failed allocation. -/
theorem claim_C10_witness :
    (gfx_lowlevel_frame_ctx_init true (some ctxFull)).out = .ret (some
      { is_mapped := false, pl_frame := plFrameZero,
        tex := [none, none, none, none], ctx_backref := some ctxFull,
        to_rgba := none }) :=
  (claim_C10 true (some ctxFull)).2.2 ctxFull rfl rfl

/-- The mapping step of `gfx_lowlevel_map_frame_ctx` never writes to the
GPU context. -/
theorem mapFinish_ctx (o : MapOracle) (c : GpuCtx) (d : FrameCtx)
    (s : AvFrame) (tr : List Ev) : (mapFinish o c d s tr).ctx = some c := by
  simp only [mapFinish]
  split
  · rfl
  · split <;> rfl

/-- The RGBA-conversion step of `gfx_lowlevel_map_frame_ctx` never
writes to the GPU context. -/
theorem mapConvert_ctx (o : MapOracle) (c : GpuCtx) (d : FrameCtx)
    (s : AvFrame) (tr : List Ev) : (mapConvert o c d s tr).ctx = some c := by
  simp only [mapConvert]
  split
  · split
    · rfl
    · split
      · rfl
      · split
        · rfl
        · apply mapFinish_ctx
  · apply mapFinish_ctx

/-- The post-sws part of `gfx_lowlevel_map_frame_ctx` never writes to
the GPU context. -/
theorem mapAfterSws_ctx (o : MapOracle) (c : GpuCtx) (d : FrameCtx)
    (s : AvFrame) (trs : List Ev) : (mapAfterSws o c d s trs).ctx = some c := by
  simp only [mapAfterSws]
  split
  · rfl
  · split
    · split
      · rfl
      · split
        · rfl
        · apply mapConvert_ctx
    · apply mapConvert_ctx

/-- C9: the `started` flag of the GPU context strictly alternates: it is
false after `gfx_lowlevel_gpu_ctx_init`; `gfx_lowlevel_gpu_ctx_start_frame`
(precondition `started == false`) sets it to true exactly when it
returns true and leaves it false when it returns false;
`gfx_lowlevel_gpu_ctx_finish_frame` (precondition `started == true`)
always resets it to false and returns 0; and no other operation writes
to the GPU context at all. -/
theorem claim_C9 :
    (∀ o w c tr, gfx_lowlevel_gpu_ctx_init o w = ⟨.ret (some c), tr⟩ →
       c.started = false) ∧
    (∀ ok sf (c : GpuCtx), c.started = false → c.swchain ≠ none →
       ∃ c' tr, gfx_lowlevel_gpu_ctx_start_frame ok sf (some c) = ⟨.ret ok, some c', tr⟩ ∧
         c'.started = ok) ∧
    (∀ c : GpuCtx, c.started = true → c.swchain ≠ none →
       gfx_lowlevel_gpu_ctx_finish_frame (some c) =
         ⟨.ret 0, some { c with started := false },
          [Ev.call .pl_swapchain_swap_buffers, Ev.call .pl_swapchain_submit_frame]⟩) ∧
    (∀ o ctx w h, (gfx_lowlevel_gpu_ctx_handle_resize o ctx w h).ctx = ctx) ∧
    (∀ o ctx dst src, (gfx_lowlevel_map_frame_ctx o ctx dst src).ctx = ctx) ∧
    (∀ o ctx m p d s n l dbg,
       (gfx_lowlevel_gpu_ctx_render o ctx m p d s n l dbg).ctx = ctx) ∧
    (∀ o ctx f w h, (gfx_lowlevel_frame_create_texture o ctx f w h).ctx = ctx) ∧
    (∀ ctx d r g b a, (gfx_lowlevel_frame_clear ctx d r g b a).ctx = ctx) ∧
    (∀ b ctx, (gfx_lowlevel_frame_ctx_init b ctx).ctx = ctx) ∧
    (∀ o ctx p hd bd v nv, (gfx_lowlevel_mix_ctx_init o ctx p hd bd v nv).ctx = ctx) ∧
    (∀ o ctx fn, (gfx_lowlevel_init_lut o ctx fn).ctx = ctx) := by
  refine ⟨?_, ?_, ?_, ?_, ?_, ?_, ?_, ?_, ?_, ?_, ?_⟩
  · intro o w c tr h
    simp only [gfx_lowlevel_gpu_ctx_init] at h
    rcases hm : o.malloc_ok <;> rw [hm] at h
    · cases h
    rcases ho : o.log with _ | lg <;> rw [ho] at h
    · cases h
    rcases hv : o.vk with _ | vkh <;> rw [hv] at h
    · cases h
    rcases hs : o.surface with _ | sf <;> rw [hs] at h
    · cases h
    rcases hw : o.swchain with _ | sw <;> rw [hw] at h
    · cases h
    rcases hrz : o.resize_ok <;> rw [hrz] at h
    · cases h
    rcases hr : o.renderer with _ | rd <;> rw [hr] at h
    · cases h
    · cases h; rfl
  · intro ok sf c hst hsw
    rcases hsw' : c.swchain with _ | sw
    · exact absurd hsw' hsw
    · rcases ok
      · refine ⟨c, [Ev.call .pl_swapchain_start_frame], ?_, hst⟩
        simp [gfx_lowlevel_gpu_ctx_start_frame, hsw', hst]
      · refine ⟨({ c with started := true, swap_frame := some sf, window_frame := { plFrameZero with from_swapchain := some sf } }), [Ev.call .pl_swapchain_start_frame, Ev.call .pl_frame_from_swapchain], ?_, rfl⟩
        simp [gfx_lowlevel_gpu_ctx_start_frame, hsw', hst]
  · intro c hst hsw
    rcases hsw' : c.swchain with _ | sw
    · exact absurd hsw' hsw
    · simp [gfx_lowlevel_gpu_ctx_finish_frame, hsw', hst]
  · intro o ctx w h
    rcases ctx with _ | c
    · rfl
    · simp only [gfx_lowlevel_gpu_ctx_handle_resize]
      repeat first | rfl | split
  · intro o ctx dst src
    rcases ctx with _ | c <;> rcases dst with _ | d <;> rcases src with _ | s <;>
      try rfl
    simp only [gfx_lowlevel_map_frame_ctx]
    split
    · rfl
    · apply mapAfterSws_ctx
  · intro o ctx m p d s n l dbg
    rcases ctx with _ | c <;> rcases p with _ | p <;> rcases d with _ | d <;>
      rcases s with _ | s <;> try rfl
    simp only [gfx_lowlevel_gpu_ctx_render]
    rcases m with _ | m
    · rfl
    · repeat first | rfl | split
  · intro o ctx f w h
    rcases ctx with _ | c <;> rcases f with _ | f <;> try rfl
    simp only [gfx_lowlevel_frame_create_texture]
    repeat first | rfl | split
  · intro ctx d r g b a
    rcases ctx with _ | c <;> rcases d with _ | d <;> try rfl
    simp only [gfx_lowlevel_frame_clear]
    repeat first | rfl | split
  · intro b ctx
    rcases ctx with _ | c
    · rfl
    · simp only [gfx_lowlevel_frame_ctx_init]
      repeat first | rfl | split
  · intro o ctx p hd bd v nv
    rcases ctx with _ | c
    · rfl
    · simp only [gfx_lowlevel_mix_ctx_init]
      repeat first | rfl | split
  · intro o ctx fn
    rcases ctx with _ | c <;> rcases fn with _ | fn <;> try rfl
    simp only [gfx_lowlevel_init_lut]
    repeat first | rfl | split

/-- Witness for C9: starting a frame on a fresh context with a
successful swapchain acquire sets `started`, and finishing it on the
started context resets the flag and returns 0. -/
theorem claim_C9_witness :
    (∃ c' tr, gfx_lowlevel_gpu_ctx_start_frame true 9 (some ctxFull) =
        ⟨.ret true, some c', tr⟩ ∧ c'.started = true) ∧
    gfx_lowlevel_gpu_ctx_finish_frame (some { ctxFull with started := true }) =
      ⟨.ret 0, some { { ctxFull with started := true } with started := false },
       [Ev.call .pl_swapchain_swap_buffers, Ev.call .pl_swapchain_submit_frame]⟩ :=
  ⟨claim_C9.2.1 true 9 ctxFull rfl (by decide),
   claim_C9.2.2.1 { ctxFull with started := true } rfl (by decide)⟩

/-- An all-success oracle for `gfx_lowlevel_gpu_ctx_render`. -/
def oRenderAll : RenderOracle :=
  { dispatch_begin_ok := true, descs_alloc_ok := true,
    desc_name_alloc := fun _ => true, attribs_alloc_ok := true,
    attr_name_alloc := fun _ => true, verts_alloc := fun _ => true,
    shader_custom_ok := true, finalize_ok := true, dispatch_finish_ok := true }

/-- Counterexample to C4 as stated: `gfx_lowlevel_gpu_ctx_render` with a
NULL `mix_ctx` (and every other argument valid) dereferences the NULL
pointer in `pl_dispatch_begin(mix_ctx->dispatch)` instead of returning
EINVAL. -/
theorem claim_C4_counterexample :
    (gfx_lowlevel_gpu_ctx_render oRenderAll (some ctxFull) none (some {})
      (some plFrameZero) (some []) 0 none false).out = .ub ∧
    (gfx_lowlevel_gpu_ctx_render oRenderAll (some ctxFull) none (some {})
      (some plFrameZero) (some []) 0 none false).out ≠ .ret EINVAL := by
  exact ⟨rfl, by decide⟩

/-- C4 (amended): every public operation except the three below
null-checks the handle/pointer arguments it uses and returns an error
sentinel (EINVAL, -1 or NULL) without any wrapped-library call when a
required argument is NULL; the exceptions are:
`gfx_lowlevel_gpu_ctx_render` does not null-check `mix_ctx` and
dereferences it; `gfx_lowlevel_gpu_ctx_start_frame` /
`gfx_lowlevel_gpu_ctx_finish_frame` reject a NULL context by `assert`
(aborting the process), not by an error return; and
`gfx_lowlevel_mix_ctx_init` does not null-check `vars` and copies
`vars[i]` for every `i < num_vars`, so a NULL `vars` with a positive
`num_vars` is a NULL dereference, not a sentinel return. -/
theorem claim_C4 :
    (∀ o m p d s n l dbg,
       gfx_lowlevel_gpu_ctx_render o none m p d s n l dbg =
         ⟨.ret EINVAL, none, [Ev.msg "Invalid context or frame"]⟩) ∧
    (∀ o ctx m p d n l dbg,
       gfx_lowlevel_gpu_ctx_render o ctx m p d none n l dbg =
         ⟨.ret EINVAL, ctx, [Ev.msg "Invalid context or frame"]⟩) ∧
    (∀ o ctx m p s n l dbg,
       gfx_lowlevel_gpu_ctx_render o ctx m p none s n l dbg =
         ⟨.ret EINVAL, ctx, [Ev.msg "Invalid context or frame"]⟩) ∧
    (∀ o ctx m d s n l dbg,
       gfx_lowlevel_gpu_ctx_render o ctx m none d s n l dbg =
         ⟨.ret EINVAL, ctx, [Ev.msg "Invalid context or frame"]⟩) ∧
    (∀ o c p d s n l dbg,
       (gfx_lowlevel_gpu_ctx_render o (some c) none (some p) (some d) (some s)
          n l dbg).out = .ub) ∧
    (∀ o sf, gfx_lowlevel_gpu_ctx_start_frame o sf none = ⟨.assertFail, none, []⟩) ∧
    (gfx_lowlevel_gpu_ctx_finish_frame none = ⟨.assertFail, none, []⟩) ∧
    (∀ o ctx dst src, (ctx = none ∨ dst = none ∨ src = none) →
       gfx_lowlevel_map_frame_ctx o ctx dst src =
         ⟨.ret EINVAL, ctx, dst, [Ev.msg "Invalid context or frame"]⟩) ∧
    (∀ o ctx f w h, (ctx = none ∨ f = none) →
       gfx_lowlevel_frame_create_texture o ctx f w h =
         ⟨.ret EINVAL, ctx, f, [Ev.msg "Invalid context or frame"]⟩) ∧
    (∀ ctx d r g b a, (ctx = none ∨ d = none) →
       gfx_lowlevel_frame_clear ctx d r g b a =
         ⟨.ret EINVAL, ctx, [Ev.msg "Invalid context or frame"]⟩) ∧
    (∀ b, gfx_lowlevel_frame_ctx_init b none = ⟨.ret none, none, [Ev.msg "Invalid context"]⟩) ∧
    (∀ o p hd bd v nv, gfx_lowlevel_mix_ctx_init o none p hd bd v nv =
       ⟨.ret none, none, [Ev.msg "Invalid context"]⟩) ∧
    (∀ o ctx fn, (ctx = none ∨ fn = none) →
       gfx_lowlevel_init_lut o ctx fn =
         ⟨.ret none, ctx, [Ev.msg "Invalid context or LUT filename"]⟩) ∧
    (∀ o w h, gfx_lowlevel_gpu_ctx_handle_resize o none w h =
       ⟨.ret (-1), none, [Ev.msg "Invalid context or swapchain"]⟩) ∧
    (∀ (o : MixInitOracle) (c : GpuCtx) p hd bd (nv : Int),
       o.alloc_ok = true →
       (p.isSome = true → o.prelude_alloc_ok = true) →
       (hd.isSome = true → o.header_alloc_ok = true) →
       (bd.isSome = true → o.body_alloc_ok = true) →
       o.vars_alloc_ok = true → 0 < nv →
       (gfx_lowlevel_mix_ctx_init o (some c) p hd bd none nv).out = .ub) := by
  refine ⟨?_, ?_, ?_, ?_, ?_, fun _ _ => rfl, rfl, ?_, ?_, ?_,
    fun _ => rfl, fun _ _ _ _ _ _ => rfl, ?_, fun _ _ _ => rfl, ?_⟩
  · intro o m p d s n l dbg
    rcases m with _ | m <;> rcases p with _ | p <;> rcases d with _ | d <;>
      rcases s with _ | s <;> rfl
  · intro o ctx m p d n l dbg
    rcases ctx with _ | c <;> rcases m with _ | m <;> rcases p with _ | p <;>
      rcases d with _ | d <;> rfl
  · intro o ctx m p s n l dbg
    rcases ctx with _ | c <;> rcases m with _ | m <;> rcases p with _ | p <;>
      rcases s with _ | s <;> rfl
  · intro o ctx m d s n l dbg
    rcases ctx with _ | c <;> rcases m with _ | m <;> rcases d with _ | d <;>
      rcases s with _ | s <;> rfl
  · intro o c p d s n l dbg
    rfl
  · rintro o ctx dst src (rfl | rfl | rfl)
    · rcases dst with _ | d <;> rcases src with _ | s <;> rfl
    · rcases ctx with _ | c <;> rcases src with _ | s <;> rfl
    · rcases ctx with _ | c <;> rcases dst with _ | d <;> rfl
  · rintro o ctx f w h (rfl | rfl)
    · rcases f with _ | f <;> rfl
    · rcases ctx with _ | c <;> rfl
  · rintro ctx d r g b a (rfl | rfl)
    · rcases d with _ | d <;> rfl
    · rcases ctx with _ | c <;> rfl
  · rintro o ctx fn (rfl | rfl)
    · rcases fn with _ | fn <;> rfl
    · rcases ctx with _ | c <;> rfl
  · intro o c p hd bd nv ha hp hh hb hv hnv
    have h1 : (p.isSome && !o.prelude_alloc_ok) = false := by
      rcases hps : p.isSome
      · simp
      · simp [hp hps]
    have h2 : (hd.isSome && !o.header_alloc_ok) = false := by
      rcases hps : hd.isSome
      · simp
      · simp [hh hps]
    have h3 : (bd.isSome && !o.body_alloc_ok) = false := by
      rcases hps : bd.isSome
      · simp
      · simp [hb hps]
    simp only [gfx_lowlevel_mix_ctx_init, ha, h1, h2, h3, hv, Bool.not_true,
      Bool.false_eq_true, if_false]
    rw [if_pos]
    simp only [Option.getD_none, List.length_nil]
    omega

/-- An all-success oracle for `gfx_lowlevel_mix_ctx_init`. -/
def oMixAll : MixInitOracle :=
  { alloc_ok := true, prelude_alloc_ok := true, header_alloc_ok := true,
    body_alloc_ok := true, vars_alloc_ok := true, dispatch := some 1 }

/-- Witness for C4: the guarded clauses instantiated at NULL arguments,
and the NULL-`vars` dereference in `gfx_lowlevel_mix_ctx_init` at a
concrete positive `num_vars`. -/
theorem claim_C4_witness :
    (gfx_lowlevel_map_frame_ctx
        { sws_ok := true, tmp_alloc_ok := true, hw_transfer_ret := 0,
          rgba_alloc_ok := true, get_buffer_ret := 0, sws_scale_ret := 0,
          map_ret := 0 } none none none =
      ⟨.ret EINVAL, none, none, [Ev.msg "Invalid context or frame"]⟩) ∧
    (gfx_lowlevel_mix_ctx_init oMixAll (some ctxFull) none none none none 3).out = .ub :=
  ⟨claim_C4.2.2.2.2.2.2.2.1
    { sws_ok := true, tmp_alloc_ok := true, hw_transfer_ret := 0,
      rgba_alloc_ok := true, get_buffer_ret := 0, sws_scale_ret := 0,
      map_ret := 0 } none none none (Or.inl rfl),
   claim_C4.2.2.2.2.2.2.2.2.2.2.2.2.2.2 oMixAll ctxFull none none none 3 rfl
     (by decide) (by decide) (by decide) rfl (by decide)⟩

/-- The final mapping step never terminates the process. -/
theorem mapFinish_not_exits (o : MapOracle) (c : GpuCtx) (d : FrameCtx)
    (s : AvFrame) (tr : List Ev) (k : Nat) :
    (mapFinish o c d s tr).out ≠ .exits k := by
  simp only [mapFinish]
  split
  · simp
  · split <;> simp

/-- The RGBA-conversion step never terminates the process. -/
theorem mapConvert_not_exits (o : MapOracle) (c : GpuCtx) (d : FrameCtx)
    (s : AvFrame) (tr : List Ev) (k : Nat) :
    (mapConvert o c d s tr).out ≠ .exits k := by
  simp only [mapConvert]
  split
  · split
    · simp
    · split
      · simp
      · split
        · simp
        · apply mapFinish_not_exits
  · apply mapFinish_not_exits

/-- The post-sws part of `gfx_lowlevel_map_frame_ctx` terminates the
process only through the `exit(1)` that follows a failed
`av_hwframe_transfer_data` on a VideoToolbox frame. -/
theorem mapAfterSws_exits (o : MapOracle) (c : GpuCtx) (d : FrameCtx)
    (s : AvFrame) (trs : List Ev) (k : Nat)
    (h : (mapAfterSws o c d s trs).out = .exits k) :
    k = 1 ∧ o.hw_transfer_ret < 0 ∧ s.format = .videotoolbox := by
  simp only [mapAfterSws] at h
  split at h
  · simp at h
  · split at h
    next hvt =>
      split at h
      · simp at h
      · split at h
        next hhw => simp at h; exact ⟨h.symm, hhw, hvt⟩
        next hhw => exact absurd h (mapConvert_not_exits _ _ _ _ _ _)
    next hvt => exact absurd h (mapConvert_not_exits _ _ _ _ _ _)

/-- Oracle failing the `av_hwframe_transfer_data` call. -/
def oMapExit : MapOracle :=
  { sws_ok := true, tmp_alloc_ok := true, hw_transfer_ret := -5,
    rgba_alloc_ok := true, get_buffer_ret := 0, sws_scale_ret := 0,
    map_ret := 0 }

/-- A freshly initialized frame context backed by `ctxFull`. -/
def frameA : FrameCtx :=
  { is_mapped := false, pl_frame := plFrameZero,
    tex := [none, none, none, none], ctx_backref := some ctxFull,
    to_rgba := none }

/-- A decoded VideoToolbox hardware frame handed in by the caller. -/
def vtFrame : AvFrame :=
  { width := 16, height := 9, format := .videotoolbox, origin := .caller,
    dataId := 0 }

/-- Counterexample to C3 as stated: when `av_hwframe_transfer_data`
fails, `gfx_lowlevel_map_frame_ctx` does not return the negative code —
it terminates the process via `exit(1)` (the `return ret` after it is
dead code). -/
theorem claim_C3_counterexample :
    (gfx_lowlevel_map_frame_ctx oMapExit (some ctxFull) (some frameA)
      (some vtFrame)).out = .exits 1 ∧
    (gfx_lowlevel_map_frame_ctx oMapExit (some ctxFull) (some frameA)
      (some vtFrame)).out ≠ .ret oMapExit.hw_transfer_ret := by
  decide

/-- C3 (amended): failures of wrapped-library calls are surfaced to the
caller as a stderr diagnostic plus a sentinel integer/bool/NULL return,
with two exceptions that terminate the process: `gfx_lowlevel_map_frame_ctx`
calls `exit(1)` when `av_hwframe_transfer_data` fails on a VideoToolbox
frame (the subsequent return of the negative code is dead code), and
`gfx_lowlevel_gpu_ctx_render` in debug mode calls `exit(1)` when
`pl_shader_finalize` fails.  No other modelled operation terminates the
process. -/
theorem claim_C3 :
    (∀ o ctx dst src k, (gfx_lowlevel_map_frame_ctx o ctx dst src).out = .exits k →
       k = 1 ∧ o.hw_transfer_ret < 0 ∧
       ∃ s, src = some s ∧ s.format = .videotoolbox) ∧
    (∀ o ctx m p d s n l dbg k,
       (gfx_lowlevel_gpu_ctx_render o ctx m p d s n l dbg).out = .exits k →
       k = 1 ∧ dbg = true ∧ o.finalize_ok = false) ∧
    (∀ o ctx w h k, (gfx_lowlevel_gpu_ctx_handle_resize o ctx w h).out ≠ .exits k) ∧
    (∀ o sf ctx k, (gfx_lowlevel_gpu_ctx_start_frame o sf ctx).out ≠ .exits k) ∧
    (∀ ctx k, (gfx_lowlevel_gpu_ctx_finish_frame ctx).out ≠ .exits k) ∧
    (∀ b ctx k, (gfx_lowlevel_frame_ctx_init b ctx).out ≠ .exits k) ∧
    (∀ o ctx f w h k, (gfx_lowlevel_frame_create_texture o ctx f w h).out ≠ .exits k) ∧
    (∀ ctx d r g b a k, (gfx_lowlevel_frame_clear ctx d r g b a).out ≠ .exits k) ∧
    (∀ o ctx p hd bd v nv k, (gfx_lowlevel_mix_ctx_init o ctx p hd bd v nv).out ≠ .exits k) ∧
    (∀ o ctx fn k, (gfx_lowlevel_init_lut o ctx fn).out ≠ .exits k) ∧
    (∀ o w k, (gfx_lowlevel_gpu_ctx_init o w).out ≠ .exits k) ∧
    (∀ cell k, (gfx_lowlevel_gpu_ctx_destroy cell).out ≠ .exits k) ∧
    (∀ cell k, (gfx_lowlevel_frame_ctx_destroy cell).out ≠ .exits k) ∧
    (∀ cell k, (gfx_lowlevel_mix_ctx_destroy cell).out ≠ .exits k) ∧
    (∀ cell k, (gfx_lowlevel_destroy_lut cell).out ≠ .exits k) ∧
    (∀ ctx k, (gfx_lowlevel_swapwindow ctx).out ≠ .exits k) ∧
    (∀ o (c : GpuCtx) (d : FrameCtx) s, d.to_rgba = none → o.sws_ok = false →
       gfx_lowlevel_map_frame_ctx o (some c) (some d) (some s) =
         ⟨.ret ENOMEM, some c, some d,
          [Ev.call .sws_getContext, Ev.msg "Failed to create sws context"]⟩) ∧
    (∀ o (c : GpuCtx) (d : FrameCtx) s sws, d.to_rgba = some sws →
       d.is_mapped = false → s.format ≠ .videotoolbox →
       o.rgba_alloc_ok = true → o.get_buffer_ret < 0 →
       gfx_lowlevel_map_frame_ctx o (some c) (some d) (some s) =
         ⟨.ret o.get_buffer_ret, some c, some d,
          [Ev.call .av_frame_get_buffer, Ev.msg "Failed to allocate hw frame buffer"]⟩) ∧
    (∀ (c : GpuCtx) w h sw, c.swchain = some sw →
       gfx_lowlevel_gpu_ctx_handle_resize false (some c) w h =
         ⟨.ret (-1), some c,
          [Ev.call .pl_swapchain_resize, Ev.msg "Failed to resize swapchain"]⟩) := by
  refine ⟨?_, ?_, ?_, ?_, ?_, ?_, ?_, ?_, ?_, ?_, ?_, ?_, ?_, ?_, ?_, ?_, ?_, ?_, ?_⟩
  · intro o ctx dst src k h
    rcases ctx with _ | c
    · simp [gfx_lowlevel_map_frame_ctx] at h
    rcases dst with _ | d
    · simp [gfx_lowlevel_map_frame_ctx] at h
    rcases src with _ | s
    · simp [gfx_lowlevel_map_frame_ctx] at h
    rcases hrg : d.to_rgba with _ | sws
    · rcases hok : o.sws_ok
      · simp [gfx_lowlevel_map_frame_ctx, hrg, hok] at h
      · simp only [gfx_lowlevel_map_frame_ctx, hrg, hok] at h
        obtain ⟨hk, hhw, hvt⟩ := mapAfterSws_exits _ _ _ _ _ _ h
        exact ⟨hk, hhw, s, rfl, hvt⟩
    · simp only [gfx_lowlevel_map_frame_ctx, hrg] at h
      obtain ⟨hk, hhw, hvt⟩ := mapAfterSws_exits _ _ _ _ _ _ h
      exact ⟨hk, hhw, s, rfl, hvt⟩
  · intro o ctx m p d s n l dbg k h
    rcases ctx with _ | c
    · simp [gfx_lowlevel_gpu_ctx_render] at h
    rcases s with _ | srcs
    · simp [gfx_lowlevel_gpu_ctx_render] at h
    rcases d with _ | d
    · simp [gfx_lowlevel_gpu_ctx_render] at h
    rcases p with _ | p
    · simp [gfx_lowlevel_gpu_ctx_render] at h
    rcases m with _ | m
    · simp [gfx_lowlevel_gpu_ctx_render] at h
    simp only [gfx_lowlevel_gpu_ctx_render] at h
    split at h
    · simp at h
    split at h
    · simp at h
    split at h
    · simp at h
    · simp at h
    split at h
    · simp at h
    split at h
    · simp at h
    · simp at h
    split at h
    · simp at h
    split at h
    next hdbg =>
      split at h
      next hfin =>
        simp at h
        simp only [Bool.not_eq_true'] at hfin
        exact ⟨h.symm, hdbg, hfin⟩
      next hfin => simp at h
    next hdbg =>
      split at h
      · simp at h
      · split at h <;> simp at h
  · intro o ctx w h k hx
    rcases ctx with _ | c
    · simp [gfx_lowlevel_gpu_ctx_handle_resize] at hx
    · rcases hsw : c.swchain with _ | sw <;> rcases o <;>
        simp [gfx_lowlevel_gpu_ctx_handle_resize, hsw] at hx
  · intro o sf ctx k hx
    rcases ctx with _ | c
    · simp [gfx_lowlevel_gpu_ctx_start_frame] at hx
    · rcases hsw : c.swchain with _ | sw <;> rcases hst : c.started <;> rcases o <;>
        simp [gfx_lowlevel_gpu_ctx_start_frame, hsw, hst] at hx
  · intro ctx k hx
    rcases ctx with _ | c
    · simp [gfx_lowlevel_gpu_ctx_finish_frame] at hx
    · rcases hsw : c.swchain with _ | sw <;> rcases hst : c.started <;>
        simp [gfx_lowlevel_gpu_ctx_finish_frame, hsw, hst] at hx
  · intro b ctx k hx
    rcases ctx with _ | c <;> rcases b <;>
      simp [gfx_lowlevel_frame_ctx_init] at hx
  · intro o ctx f w h k hx
    rcases ctx with _ | c <;> rcases f with _ | f <;>
      try simp [gfx_lowlevel_frame_create_texture] at hx
    rcases hvk : c.vk with _ | vk <;>
      rcases hf : o.fmt with _ | fmt <;> rcases ht : o.tex with _ | t <;>
      simp [gfx_lowlevel_frame_create_texture, hvk, hf, ht] at hx
  · intro ctx d r g b a k hx
    rcases ctx with _ | c <;> rcases d with _ | d <;>
      try simp [gfx_lowlevel_frame_clear] at hx
    rcases hvk : c.vk with _ | vk <;>
      simp [gfx_lowlevel_frame_clear, hvk] at hx
  · intro o ctx p hd bd v nv k hx
    rcases ctx with _ | c
    · simp [gfx_lowlevel_mix_ctx_init] at hx
    simp only [gfx_lowlevel_mix_ctx_init] at hx
    split at hx
    · simp at hx
    split at hx
    · simp at hx
    split at hx
    · simp at hx
    split at hx
    · simp at hx
    split at hx
    · simp at hx
    split at hx
    · simp at hx
    split at hx <;> simp at hx
  · intro o ctx fn k hx
    rcases ctx with _ | c
    · simp [gfx_lowlevel_init_lut] at hx
    rcases fn with _ | fn
    · simp [gfx_lowlevel_init_lut] at hx
    simp only [gfx_lowlevel_init_lut] at hx
    split at hx
    · simp at hx
    split at hx
    · simp at hx
    split at hx
    · simp at hx
    split at hx
    · simp at hx
    split at hx <;> simp at hx
  · intro o w k hx
    simp only [gfx_lowlevel_gpu_ctx_init] at hx
    rcases hm : o.malloc_ok <;> rw [hm] at hx
    · simp at hx
    rcases ho : o.log with _ | lg <;> rw [ho] at hx
    · simp at hx
    rcases hv : o.vk with _ | vkh <;> rw [hv] at hx
    · simp at hx
    rcases hs : o.surface with _ | sf <;> rw [hs] at hx
    · simp at hx
    rcases hw : o.swchain with _ | sw <;> rw [hw] at hx
    · simp at hx
    rcases hrz : o.resize_ok <;> rw [hrz] at hx
    · simp at hx
    rcases hr : o.renderer with _ | rd <;> rw [hr] at hx <;> simp at hx
  · rintro (_ | (_ | c)) k hx
    · simp [gfx_lowlevel_gpu_ctx_destroy] at hx
    · simp [gfx_lowlevel_gpu_ctx_destroy] at hx
    · obtain ⟨w9, vk9, vs9, sw9, sf9, wf9, rd9, lg9, st9⟩ := c
      rcases vs9 with _ | vs9 <;> rcases vk9 with _ | vk9 <;>
        simp [gfx_lowlevel_gpu_ctx_destroy] at hx
  · rintro (_ | (_ | f)) k hx
    · simp [gfx_lowlevel_frame_ctx_destroy] at hx
    · simp [gfx_lowlevel_frame_ctx_destroy] at hx
    · obtain ⟨im, pf, tx, cb, rgba⟩ := f
      rcases cb with _ | cb
      · simp [gfx_lowlevel_frame_ctx_destroy] at hx
      · obtain ⟨w9, vk9, vs9, sw9, sf9, wf9, rd9, lg9, st9⟩ := cb
        rcases sw9 with _ | sw9
        · simp [gfx_lowlevel_frame_ctx_destroy] at hx
        · rcases vk9 with _ | ⟨inst9, gpu9⟩
          · simp [gfx_lowlevel_frame_ctx_destroy] at hx
          · rcases gpu9 with _ | g9 <;>
              simp [gfx_lowlevel_frame_ctx_destroy] at hx
  · rintro (_ | (_ | m)) k hx
    · simp [gfx_lowlevel_mix_ctx_destroy] at hx
    · simp [gfx_lowlevel_mix_ctx_destroy] at hx
    · simp only [gfx_lowlevel_mix_ctx_destroy] at hx
      split at hx <;> simp at hx
  · rintro (_ | (_ | l)) k hx <;> simp [gfx_lowlevel_destroy_lut] at hx
  · intro ctx k hx
    rcases ctx with _ | c
    · simp [gfx_lowlevel_swapwindow] at hx
    · rcases hw : c.shared_window with _ | w <;>
        simp [gfx_lowlevel_swapwindow, hw] at hx
  · intro o c d s hrg hok
    simp [gfx_lowlevel_map_frame_ctx, hrg, hok]
  · intro o c d s sws hrg him hvt hrga hgb
    simp only [gfx_lowlevel_map_frame_ctx, hrg, mapAfterSws, him, mapConvert,
      Bool.false_and, Bool.false_eq_true, if_false, hvt, if_neg hvt, hrga,
      Option.isNone_none]
    simp [mapConvert, hrg, hrga, if_pos hgb]
  · intro c w h sw hsw
    simp [gfx_lowlevel_gpu_ctx_handle_resize, hsw]

/-- Witness for C3: the exit-site characterization applied at the
concrete failing VideoToolbox transfer. -/
theorem claim_C3_witness :
    1 = 1 ∧ oMapExit.hw_transfer_ret < 0 ∧
      ∃ s, some vtFrame = some s ∧ s.format = PixFmt.videotoolbox :=
  claim_C3.1 oMapExit (some ctxFull) (some frameA) (some vtFrame) 1 (by decide)

/-- Successful `pl_map_avframe_ex`: returns 0, marks the frame context
mapped, and stores the mapped frame. -/
theorem mapFinish_success (o : MapOracle) (c : GpuCtx) (d : FrameCtx)
    (ms : AvFrame) (tr : List Ev) (hvk : c.vk ≠ none) (hm : 0 ≤ o.map_ret) :
    mapFinish o c d ms tr =
      ⟨.ret 0, some c,
       some { d with is_mapped := true, pl_frame := mappedPlFrame ms },
       tr ++ [Ev.call (.pl_map_avframe_ex ms)]⟩ := by
  rcases hv : c.vk with _ | v
  · exact absurd hv hvk
  · simp only [mapFinish, hv]
    rw [if_neg (not_lt.mpr hm)]

/-- Successful RGBA conversion and mapping: the source frame is scaled
into a fresh RGBA frame which is then mapped. -/
theorem mapConvert_success (o : MapOracle) (c : GpuCtx) (d : FrameCtx)
    (s : AvFrame) (tr : List Ev) (sws : SwsCtx) (hrg : d.to_rgba = some sws)
    (hvk : c.vk ≠ none) (hrga : o.rgba_alloc_ok = true)
    (hgb : 0 ≤ o.get_buffer_ret) (hsc : 0 ≤ o.sws_scale_ret)
    (hm : 0 ≤ o.map_ret) :
    mapConvert o c d s tr =
      ⟨.ret 0, some c,
       some { d with is_mapped := true, pl_frame := mappedPlFrame (rgbaOf s) },
       tr ++ [Ev.call .av_frame_get_buffer, Ev.call .sws_scale,
              Ev.call (.pl_map_avframe_ex (rgbaOf s))]⟩ := by
  simp only [mapConvert, hrg, hrga, Bool.not_true, Bool.false_eq_true, if_false]
  rw [if_neg (not_lt.mpr hgb), if_neg (not_lt.mpr hsc),
    mapFinish_success o c d (rgbaOf s) _ hvk hm]
  simp
  all_goals exact hrg

/-- Successful post-sws mapping path: a VideoToolbox frame is first
hardware-transferred, the effective frame is RGBA-converted and mapped,
and a previously mapped frame is unmapped first. -/
theorem mapAfterSws_success (o : MapOracle) (c : GpuCtx) (d : FrameCtx)
    (s : AvFrame) (trs : List Ev) (sws : SwsCtx) (hrg : d.to_rgba = some sws)
    (hvk : c.vk ≠ none)
    (hvt : s.format = .videotoolbox → o.tmp_alloc_ok = true ∧ 0 ≤ o.hw_transfer_ret)
    (hrga : o.rgba_alloc_ok = true) (hgb : 0 ≤ o.get_buffer_ret)
    (hsc : 0 ≤ o.sws_scale_ret) (hm : 0 ≤ o.map_ret) :
    mapAfterSws o c d s trs =
      ⟨.ret 0, some c,
       some ({ d with is_mapped := true, pl_frame := mappedPlFrame (rgbaOf (if s.format = .videotoolbox then hwTransferred s else s)) }),
       trs ++ (if d.is_mapped then [Ev.call .pl_unmap_avframe] else []) ++
         (if s.format = .videotoolbox then [Ev.call .av_hwframe_transfer_data] else []) ++
         [Ev.call .av_frame_get_buffer, Ev.call .sws_scale,
          Ev.call (.pl_map_avframe_ex (rgbaOf
            (if s.format = .videotoolbox then hwTransferred s else s)))]⟩ := by
  rcases hv : c.vk with _ | v
  · exact absurd hv hvk
  simp only [mapAfterSws, hv, Option.isNone_some, Bool.and_false, Bool.false_eq_true,
    if_false]
  by_cases hfmt : s.format = .videotoolbox
  · obtain ⟨htmp, hhw⟩ := hvt hfmt
    simp only [if_pos hfmt, htmp, Bool.not_true, Bool.false_eq_true, if_false]
    rw [if_neg (not_lt.mpr hhw),
      mapConvert_success o c d (hwTransferred s) _ sws hrg hvk hrga hgb hsc hm]
  · simp only [if_neg hfmt]
    rw [mapConvert_success o c d s _ sws hrg hvk hrga hgb hsc hm]
    simp [hfmt]

/-- C6: for non-NULL context, destination and source, a successful
`gfx_lowlevel_map_frame_ctx` returns 0 and leaves the destination
holding the decoded frame uploaded as a GPU texture: a VideoToolbox
hardware frame is first transferred (to an NV12 software frame), the
effective frame is converted to RGBA by `sws_scale`, the conversion is
mapped via `pl_map_avframe_ex` into `dst->pl_frame`, `is_mapped` is set,
and a previously mapped frame is unmapped first. -/
theorem claim_C6 (o : MapOracle) (c : GpuCtx) (d : FrameCtx) (s : AvFrame)
    (hvk : c.vk ≠ none)
    (hsws : d.to_rgba = none → o.sws_ok = true)
    (hvt : s.format = .videotoolbox → o.tmp_alloc_ok = true ∧ 0 ≤ o.hw_transfer_ret)
    (hrga : o.rgba_alloc_ok = true) (hgb : 0 ≤ o.get_buffer_ret)
    (hsc : 0 ≤ o.sws_scale_ret) (hm : 0 ≤ o.map_ret) :
    (gfx_lowlevel_map_frame_ctx o (some c) (some d) (some s)).out = .ret 0 ∧
    (∃ d', (gfx_lowlevel_map_frame_ctx o (some c) (some d) (some s)).dst = some d' ∧
       d'.is_mapped = true ∧
       d'.pl_frame = mappedPlFrame (rgbaOf
         (if s.format = .videotoolbox then hwTransferred s else s)) ∧
       d'.to_rgba ≠ none) ∧
    Ev.call (.pl_map_avframe_ex (rgbaOf
        (if s.format = .videotoolbox then hwTransferred s else s)))
      ∈ (gfx_lowlevel_map_frame_ctx o (some c) (some d) (some s)).tr ∧
    Ev.call .sws_scale ∈ (gfx_lowlevel_map_frame_ctx o (some c) (some d) (some s)).tr ∧
    (s.format = .videotoolbox →
       Ev.call .av_hwframe_transfer_data
         ∈ (gfx_lowlevel_map_frame_ctx o (some c) (some d) (some s)).tr) ∧
    (d.is_mapped = true → ∃ pre post,
       (gfx_lowlevel_map_frame_ctx o (some c) (some d) (some s)).tr =
         pre ++ Ev.call .pl_unmap_avframe :: post ∧
       Ev.call (.pl_map_avframe_ex (rgbaOf
         (if s.format = .videotoolbox then hwTransferred s else s))) ∈ post) := by
  rcases hrg : d.to_rgba with _ | sws
  · have hok := hsws hrg
    simp only [gfx_lowlevel_map_frame_ctx, hrg, hok, Option.isNone_none, if_true]
    rw [mapAfterSws_success o c _ s _ (mkSws s) rfl hvk hvt hrga hgb hsc hm]
    refine ⟨rfl, ⟨_, rfl, ?_, ?_, ?_⟩, List.mem_append_right _ (by simp),
      List.mem_append_right _ (by simp), fun hf => ?_, fun him => ?_⟩
    · rfl
    · rfl
    · simp
    · exact List.mem_append_left _ (List.mem_append_right _ (by simp [hf]))
    · refine ⟨[Ev.call .sws_getContext],
        (if s.format = .videotoolbox then [Ev.call .av_hwframe_transfer_data] else []) ++
          [Ev.call .av_frame_get_buffer, Ev.call .sws_scale,
           Ev.call (.pl_map_avframe_ex (rgbaOf (if s.format = .videotoolbox then hwTransferred s else s)))],
        ?_, List.mem_append_right _ (by simp)⟩
      simp [him]
  · simp only [gfx_lowlevel_map_frame_ctx, hrg, Option.isNone_some, Bool.false_eq_true,
      if_false]
    rw [mapAfterSws_success o c d s _ sws hrg hvk hvt hrga hgb hsc hm]
    refine ⟨rfl, ⟨_, rfl, ?_, ?_, ?_⟩, List.mem_append_right _ (by simp),
      List.mem_append_right _ (by simp), fun hf => ?_, fun him => ?_⟩
    · rfl
    · rfl
    · simp [hrg]
    · exact List.mem_append_left _ (List.mem_append_right _ (by simp [hf]))
    · refine ⟨[],
        (if s.format = .videotoolbox then [Ev.call .av_hwframe_transfer_data] else []) ++
          [Ev.call .av_frame_get_buffer, Ev.call .sws_scale,
           Ev.call (.pl_map_avframe_ex (rgbaOf (if s.format = .videotoolbox then hwTransferred s else s)))],
        ?_, List.mem_append_right _ (by simp)⟩
      simp [him]

/-- An all-success oracle for `gfx_lowlevel_map_frame_ctx`. -/
def oMapGood : MapOracle :=
  { sws_ok := true, tmp_alloc_ok := true, hw_transfer_ret := 0,
    rgba_alloc_ok := true, get_buffer_ret := 0, sws_scale_ret := 0,
    map_ret := 0 }

/-- A decoded software frame handed in by the caller. -/
def swFrame : AvFrame :=
  { width := 4, height := 2, format := .other 0, origin := .caller, dataId := 3 }

/-- Witness for C6: a successful mapping of a concrete software frame
into a fresh frame context. -/
theorem claim_C6_witness :
    (gfx_lowlevel_map_frame_ctx oMapGood (some ctxFull) (some frameA)
       (some swFrame)).out = .ret 0 ∧
    (∃ d', (gfx_lowlevel_map_frame_ctx oMapGood (some ctxFull) (some frameA)
        (some swFrame)).dst = some d' ∧
      d'.is_mapped = true ∧
      d'.pl_frame = mappedPlFrame (rgbaOf
        (if swFrame.format = .videotoolbox then hwTransferred swFrame else swFrame)) ∧
      d'.to_rgba ≠ none) ∧
    Ev.call (.pl_map_avframe_ex (rgbaOf
        (if swFrame.format = .videotoolbox then hwTransferred swFrame else swFrame)))
      ∈ (gfx_lowlevel_map_frame_ctx oMapGood (some ctxFull) (some frameA)
          (some swFrame)).tr ∧
    Ev.call .sws_scale ∈ (gfx_lowlevel_map_frame_ctx oMapGood (some ctxFull)
        (some frameA) (some swFrame)).tr ∧
    (swFrame.format = .videotoolbox →
       Ev.call .av_hwframe_transfer_data
         ∈ (gfx_lowlevel_map_frame_ctx oMapGood (some ctxFull) (some frameA)
             (some swFrame)).tr) ∧
    (frameA.is_mapped = true → ∃ pre post,
       (gfx_lowlevel_map_frame_ctx oMapGood (some ctxFull) (some frameA)
           (some swFrame)).tr = pre ++ Ev.call .pl_unmap_avframe :: post ∧
       Ev.call (.pl_map_avframe_ex (rgbaOf
         (if swFrame.format = .videotoolbox then hwTransferred swFrame else swFrame)))
         ∈ post) :=
  claim_C6 oMapGood ctxFull frameA swFrame (by decide) (fun _ => rfl)
    (fun hx => by cases hx) rfl (by decide) (by decide) (by decide)

/-- Any frame handed to `pl_map_avframe_ex` by the final mapping step is
either already in the incoming trace or is the step's own map source. -/
theorem mapFinish_map_events (o : MapOracle) (c : GpuCtx) (d : FrameCtx)
    (ms : AvFrame) (tr : List Ev) (f : AvFrame)
    (h : Ev.call (.pl_map_avframe_ex f) ∈ (mapFinish o c d ms tr).tr) :
    Ev.call (.pl_map_avframe_ex f) ∈ tr ∨ f = ms := by
  simp only [mapFinish] at h
  split at h
  · exact Or.inl h
  · split at h <;> simp at h <;> tauto

/-- When the RGBA converter is present, any frame the conversion step
hands to `pl_map_avframe_ex` is an `sws_scale` RGBA conversion. -/
theorem mapConvert_map_events (o : MapOracle) (c : GpuCtx) (d : FrameCtx)
    (s : AvFrame) (tr : List Ev) (f : AvFrame) (sws : SwsCtx)
    (hrg : d.to_rgba = some sws)
    (h : Ev.call (.pl_map_avframe_ex f) ∈ (mapConvert o c d s tr).tr) :
    Ev.call (.pl_map_avframe_ex f) ∈ tr ∨ ∃ e, f = rgbaOf e := by
  simp only [mapConvert, hrg] at h
  split at h
  · simp at h; exact Or.inl h
  · split at h
    · simp at h; exact Or.inl h
    · split at h
      · simp at h; exact Or.inl h
      · rcases mapFinish_map_events _ _ _ _ _ _ h with h' | h'
        · simp at h'; exact Or.inl h'
        · exact Or.inr ⟨s, h'⟩

/-- Any frame the post-sws part hands to `pl_map_avframe_ex` is an
`sws_scale` RGBA conversion (of the possibly hardware-transferred
source), provided the RGBA converter is present. -/
theorem mapAfterSws_map_events (o : MapOracle) (c : GpuCtx) (d : FrameCtx)
    (s : AvFrame) (trs : List Ev) (f : AvFrame) (sws : SwsCtx)
    (hrg : d.to_rgba = some sws)
    (h : Ev.call (.pl_map_avframe_ex f) ∈ (mapAfterSws o c d s trs).tr) :
    Ev.call (.pl_map_avframe_ex f) ∈ trs ∨ ∃ e, f = rgbaOf e := by
  simp only [mapAfterSws] at h
  split at h
  · exact Or.inl h
  · split at h
    · split at h
      · simp at h; exact Or.inl h
      · split at h
        · simp at h; exact Or.inl h
        · rcases mapConvert_map_events _ _ _ _ _ _ sws hrg h with h' | h'
          · simp at h'; exact Or.inl h'
          · exact Or.inr h'
    · rcases mapConvert_map_events _ _ _ _ _ _ sws hrg h with h' | h'
      · simp at h'; exact Or.inl h'
      · exact Or.inr h'

/-- C8: every frame `gfx_lowlevel_map_frame_ctx` hands to
`pl_map_avframe_ex` is an RGBA conversion produced by the `sws_scale`
step, never the caller's original frame: the converter `dst->to_rgba`
is created on first use before any mapping, so the branch mapping the
source directly is unreachable. -/
theorem claim_C8 (o : MapOracle) (ctx : Option GpuCtx) (dst : Option FrameCtx)
    (src : Option AvFrame) (f : AvFrame)
    (h : Ev.call (.pl_map_avframe_ex f) ∈ (gfx_lowlevel_map_frame_ctx o ctx dst src).tr) :
    (∃ e, f = rgbaOf e) ∧ f.origin = .rgbaConv ∧ f.format = .rgba ∧
    ∀ s, src = some s → s.origin = .caller → f ≠ s := by
  have hmain : ∃ e, f = rgbaOf e := by
    rcases ctx with _ | c
    · simp [gfx_lowlevel_map_frame_ctx] at h
    rcases dst with _ | d
    · simp [gfx_lowlevel_map_frame_ctx] at h
    rcases src with _ | s
    · simp [gfx_lowlevel_map_frame_ctx] at h
    rcases hrg : d.to_rgba with _ | sws
    · rcases hok : o.sws_ok
      · simp [gfx_lowlevel_map_frame_ctx, hrg, hok] at h
      · simp only [gfx_lowlevel_map_frame_ctx, hrg, hok, Option.isNone_none, if_true] at h
        rcases mapAfterSws_map_events _ _ _ _ _ _ (mkSws s) rfl h with h' | h'
        · simp at h'
        · exact h'
    · simp only [gfx_lowlevel_map_frame_ctx, hrg, Option.isNone_some,
        Bool.false_eq_true, if_false] at h
      rcases mapAfterSws_map_events _ _ _ _ _ _ sws hrg h with h' | h'
      · simp at h'
      · exact h'
  obtain ⟨e, rfl⟩ := hmain
  refine ⟨⟨e, rfl⟩, rfl, rfl, ?_⟩
  rintro s rfl horig heq
  rw [← heq] at horig
  simp [rgbaOf] at horig

/-- Witness for C8: the concrete successful mapping of `swFrame` only
hands RGBA conversions to `pl_map_avframe_ex`. -/
theorem claim_C8_witness :
    (∃ e, rgbaOf swFrame = rgbaOf e) ∧
    (rgbaOf swFrame).origin = .rgbaConv ∧ (rgbaOf swFrame).format = .rgba ∧
    ∀ s, some swFrame = some s → s.origin = .caller → rgbaOf swFrame ≠ s :=
  claim_C8 oMapGood (some ctxFull) (some frameA) (some swFrame)
    (rgbaOf swFrame) (by decide)

end GfxLowLevel
